import Mathlib

/-! Dione consensus core: PBFT vote tally and pre-prepare validation.

A shallow embedding of `consensus/consensus.go`, `consensus/pre_prepare_pool.go` and
`consensus/miner.go`, followed by theorems about them.

Modelling conventions.

* Go `int` is a 64-bit two's-complement integer: it is an `Int` and every
  arithmetic result goes through `wrapInt`.
* A handler runs to completion on the manager state (one message at a time).  A
  logged version of each handler records which of its accesses happen while the
  goroutine holds the mutex of the round; the interleaving of goroutines is not
  modelled.
* External effects are recorded in the `Outcome` of a call: the messages handed to
  `BroadcastToServiceTopic`, in order, and the invocations of finish callbacks, in
  order.  Whether a broadcast succeeds is an input of the call.  Log output is not
  modelled.
* A run-time panic (failed type assertion, nil function call, index out of range)
  is an explicit result.
-/

set_option linter.unusedVariables false

namespace Dione

/-! ## Go machine integers -/

/-- Two's-complement wrap-around of a mathematical integer into the range of a 64-bit Go `int`. -/
def wrapInt (x : Int) : Int :=
  (x + 9223372036854775808) % 18446744073709551616 - 9223372036854775808

/-- Go `a + b` on `int`. -/
def intAdd (a b : Int) : Int := wrapInt (a + b)

/-- Go `a * b` on `int`. -/
def intMul (a b : Int) : Int := wrapInt (a * b)

/-- The values a Go `int` can hold. -/
def InIntRange (x : Int) : Prop :=
  -9223372036854775808 ≤ x ∧ x < 9223372036854775808

instance (x : Int) : Decidable (InIntRange x) :=
  inferInstanceAs (Decidable (-9223372036854775808 ≤ x ∧ x < 9223372036854775808))

/-! ## Messages (`models.Message`) -/

/-- A dynamically typed payload value (`interface{}`): nil, a string, or a value of another type. -/
inductive Value where
  | nil
  | str (s : String)
  | other (tag : Nat)
  deriving DecidableEq, Repr

/-- A `map[string]interface{}` as an association list with unique keys. -/
abbrev Payload := List (String × Value)

/-- Map read `p[k]`: a missing key reads as the nil interface value. -/
def payloadGet (p : Payload) (k : String) : Value :=
  match p.lookup k with
  | some v => v
  | none => Value.nil

/-- Map write `p[k] = v`. -/
def payloadSet (p : Payload) (k : String) (v : Value) : Payload :=
  (k, v) :: p.filter (fun e => e.1 != k)

/-- The two fields of `models.Message` the consensus manager uses (`Type`, `Payload`). -/
structure Message where
  Type_ : String
  Payload : Payload
  deriving DecidableEq, Repr

/-! ## `consensus.go` -/

/-- The `ConsensusState` constants. -/
inductive ConsensusState where
  | consensusPrePrepared
  | consensusPrepared
  | consensusCommitted
  deriving DecidableEq, Repr

/-- The integer value of a `ConsensusState` constant (0x0, 0x1, 0x2). -/
def ConsensusState.toInt : ConsensusState → Int
  | .consensusPrePrepared => 0
  | .consensusPrepared => 1
  | .consensusCommitted => 2

/-- The struct `ConsensusData` without its mutex.  A callback is identified by a number;
`none` is the nil function value. -/
structure ConsensusData where
  preparedCount : Int
  commitCount : Int
  State : ConsensusState
  result : String
  test : Bool
  onConsensusFinishCallback : Option Nat
  deriving DecidableEq, Repr

/-- The struct `PBFTConsensusManager`: the map of rounds and the fault bound.  The router
`psb` and the `miner` are external; the router's effects are recorded in `Outcome`. -/
structure PBFTConsensusManager where
  Consensuses : String → Option ConsensusData
  maxFaultNodes : Int

/-- Map write `pcm.Consensuses[consensusID] = cData`; also used for a field write through the
pointer stored under `consensusID`. -/
def setConsensus (pcm : PBFTConsensusManager) (consensusID : String) (cData : ConsensusData) :
    PBFTConsensusManager :=
  { pcm with Consensuses := fun k => if k = consensusID then some cData else pcm.Consensuses k }

/-- What a call leaves behind: the manager state, the messages handed to
`BroadcastToServiceTopic`, the finish-callback invocations (callback, argument), and whether
the call ended in a run-time panic. -/
structure Outcome where
  pcm : PBFTConsensusManager
  broadcasts : List Message
  callbacks : List (Nat × String)
  panicked : Bool

/-- Constructor `NewPBFTConsensusManager(psb, maxFaultNodes)`: it makes the empty map and
registers the two hooks; the field `maxFaultNodes` is never assigned and keeps its zero value. -/
def NewPBFTConsensusManager (maxFaultNodes : Int) : PBFTConsensusManager :=
  { Consensuses := fun _ => none, maxFaultNodes := 0 }

/-- Method `NewTestConsensus(data, consensusID, onConsensusFinishCallback)`.  The error returned
by the broadcast (`bcastOk = false`) is discarded by the source. -/
def NewTestConsensus (pcm : PBFTConsensusManager) (bcastOk : Bool) (data : String)
    (consensusID : String) (onConsensusFinishCallback : Option Nat) : Outcome :=
  let cData : ConsensusData :=
    { preparedCount := 0, commitCount := 0, State := .consensusPrePrepared, result := "",
      test := true, onConsensusFinishCallback := onConsensusFinishCallback }
  let pcm1 := setConsensus pcm consensusID cData
  let msg : Message :=
    { Type_ := "prepared",
      Payload := payloadSet (payloadSet [] "consensusID" (.str consensusID)) "data" (.str data) }
  let pcm2 := setConsensus pcm1 consensusID { cData with State := .consensusPrePrepared }
  { pcm := pcm2, broadcasts := [msg], callbacks := [], panicked := false }

/-- Method `handlePreparedMessage(message)`; `bcastOk` says whether the commit broadcast, if one
is made, returns a nil error. -/
def handlePreparedMessage (pcm : PBFTConsensusManager) (bcastOk : Bool) (message : Message) :
    Outcome :=
  match payloadGet message.Payload "consensusID" with
  | .str consensusID =>
    match pcm.Consensuses consensusID with
    | none => { pcm := pcm, broadcasts := [], callbacks := [], panicked := false }
    | some data =>
      let data1 := { data with preparedCount := intAdd data.preparedCount 1 }
      let pcm1 := setConsensus pcm consensusID data1
      if data1.preparedCount > intAdd (intMul 2 pcm.maxFaultNodes) 1 then
        let msg : Message :=
          { Type_ := "commit",
            Payload := payloadSet (payloadSet [] "consensusID" (.str consensusID)) "data"
              (payloadGet message.Payload "data") }
        if bcastOk then
          { pcm := setConsensus pcm1 consensusID { data1 with State := .consensusPrepared },
            broadcasts := [msg], callbacks := [], panicked := false }
        else
          { pcm := pcm1, broadcasts := [msg], callbacks := [], panicked := false }
      else
        { pcm := pcm1, broadcasts := [], callbacks := [], panicked := false }
  | _ => { pcm := pcm, broadcasts := [], callbacks := [], panicked := true }

/-- Method `handleCommitMessage(message)`.  The writes made before a panic stay in the state. -/
def handleCommitMessage (pcm : PBFTConsensusManager) (message : Message) : Outcome :=
  match payloadGet message.Payload "consensusID" with
  | .str consensusID =>
    match pcm.Consensuses consensusID with
    | none => { pcm := pcm, broadcasts := [], callbacks := [], panicked := false }
    | some data =>
      if data.State = .consensusCommitted then
        { pcm := pcm, broadcasts := [], callbacks := [], panicked := false }
      else
        let data1 := { data with commitCount := intAdd data.commitCount 1 }
        let pcm1 := setConsensus pcm consensusID data1
        if data1.commitCount > intAdd (intMul 2 pcm.maxFaultNodes) 1 then
          let data2 := { data1 with State := .consensusCommitted }
          match payloadGet message.Payload "data" with
          | .str d =>
            let data3 := { data2 with result := d }
            let pcm3 := setConsensus pcm1 consensusID data3
            match data3.onConsensusFinishCallback with
            | some cb =>
              { pcm := pcm3, broadcasts := [], callbacks := [(cb, data3.result)],
                panicked := false }
            | none => { pcm := pcm3, broadcasts := [], callbacks := [], panicked := true }
          | _ =>
            { pcm := setConsensus pcm1 consensusID data2, broadcasts := [], callbacks := [],
              panicked := true }
        else
          { pcm := pcm1, broadcasts := [], callbacks := [], panicked := false }
  | _ => { pcm := pcm, broadcasts := [], callbacks := [], panicked := true }

/-! ## Message delivery through the hooks -/

/-- One message delivered by the router to the hook registered for its type: a "prepared"
message (with the outcome of the broadcast it may trigger) or a "commit" message. -/
inductive Delivery where
  | prepared (message : Message) (bcastOk : Bool)
  | commit (message : Message)

/-- The handler the router calls for a delivery. -/
def deliver (pcm : PBFTConsensusManager) : Delivery → Outcome
  | .prepared message bcastOk => handlePreparedMessage pcm bcastOk message
  | .commit message => handleCommitMessage pcm message

/-- A finite sequence of deliveries handled one after the other; effects accumulate in order and
a panic ends the run. -/
def deliverAll (pcm : PBFTConsensusManager) : List Delivery → Outcome
  | [] => { pcm := pcm, broadcasts := [], callbacks := [], panicked := false }
  | e :: es =>
    let o := deliver pcm e
    if o.panicked then o
    else
      let r := deliverAll o.pcm es
      { pcm := r.pcm, broadcasts := o.broadcasts ++ r.broadcasts,
        callbacks := o.callbacks ++ r.callbacks, panicked := r.panicked }

/-- A "prepared" message as a peer sends it for round `consensusID`. -/
def preparedMsg (consensusID data : String) : Message :=
  { Type_ := "prepared", Payload := [("consensusID", .str consensusID), ("data", .str data)] }

/-- A "commit" message as a peer sends it for round `consensusID`. -/
def commitMsg (consensusID data : String) : Message :=
  { Type_ := "commit", Payload := [("consensusID", .str consensusID), ("data", .str data)] }

/-- The callback invocations made for callback `cb`. -/
def callsOf (cb : Nat) (o : Outcome) : List String :=
  (o.callbacks.filter (fun c => c.1 == cb)).map (fun c => c.2)

/-- The number of broadcast messages of type "commit". -/
def commitBroadcasts (o : Outcome) : Nat :=
  (o.broadcasts.filter (fun m => m.Type_ == "commit")).length

/-- The state of round `consensusID`, when registered. -/
def stateOf (pcm : PBFTConsensusManager) (consensusID : String) : Option ConsensusState :=
  (pcm.Consensuses consensusID).map (fun d => d.State)

/-- The result of round `consensusID`, when registered. -/
def resultOf (pcm : PBFTConsensusManager) (consensusID : String) : Option String :=
  (pcm.Consensuses consensusID).map (fun d => d.result)

/-- A manager from the constructor with one test round "r1" (callback 7, data "test"). -/
def startedR1 (f : Int) : PBFTConsensusManager :=
  (NewTestConsensus (NewPBFTConsensusManager f) true "test" "r1" (some 7)).pcm

/-! ## `pre_prepare_pool.go`: the validation pipeline -/

/-- A byte slice; a nil slice and an empty slice are both `[]`. -/
abbrev Bytes := List Nat

/-- A Go `error` value: `none` is the nil error. -/
abbrev GoError := Option String

/-- The result of a call that can end in a run-time panic. -/
inductive GoResult (α : Type) where
  | returned (v : α)
  | panicked
  deriving DecidableEq, Repr

/-- The fields of `types.ElectionProof` the pipeline reads. -/
structure ElectionProof where
  WinCount : Int
  VRFProof : Bytes
  deriving DecidableEq, Repr

/-- The field of `types.Ticket` the pipeline reads. -/
structure Ticket where
  VRFProof : Bytes
  deriving DecidableEq, Repr

/-- The struct `types.BeaconEntry`: a round number and its randomness. -/
structure BeaconEntry where
  Round : Nat
  Data : Bytes
  deriving DecidableEq, Repr

/-- The struct `types.DioneTask`, with the fields `MineTask` fills and the pipeline reads.
`Ticket` and `ElectionProof` are pointers (`none` is nil). -/
structure DioneTask where
  OriginChain : Nat
  RequestType : String
  RequestParams : String
  Miner : String
  MinerEth : String
  Ticket : Option Ticket
  ElectionProof : Option ElectionProof
  BeaconEntries : List BeaconEntry
  DrandRound : Int
  Payload : Bytes
  deriving DecidableEq, Repr

/-- The struct `types2.ConsensusMessage`, the payload of a pre-prepare message. -/
structure ConsensusMessage where
  ConsensusID : String
  RequestID : String
  CallbackAddress : Bytes
  CallbackMethodID : Bytes
  Task : DioneTask
  Signature : Bytes
  deriving DecidableEq, Repr

/-- The struct `types2.Message` of the consensus wire protocol: sender and payload. -/
structure PrePrepareMessage where
  From : String
  Payload : ConsensusMessage
  deriving DecidableEq, Repr

/-- The cached request event returned by `GetOracleRequestEvent`; the address and the method id
are given as the bytes the pipeline compares (`CallbackAddress.Bytes()`, `CallbackMethodID[:]`). -/
structure OracleRequestEvent where
  CallbackAddress : Bytes
  CallbackMethodID : Bytes
  OriginChain : Nat
  RequestType : String
  RequestParams : String
  deriving DecidableEq, Repr

/-- The functions and constants `IsValidPrePrepare` calls that are declared outside
`pre_prepare_pool.go`: each is a parameter of the model. -/
structure ValidationEnv where
  verifyTaskSignature : ConsensusMessage → GoError
  GetOracleRequestEvent : String → Except String OracleRequestEvent
  HexToAddress : String → Bytes
  IsMinerEligibleToProposeTask : Bytes → GoError
  MarshalBinary : String → Except String Bytes
  DrawRandomness : Bytes → Int → Int → Bytes → Except String Bytes
  VerifyVRF : String → Bytes → Bytes → GoError
  GetStakeInfo : Bytes → Except String (Int × Int)
  ComputeWinCount : ElectionProof → Int → Int → Int
  GetValidationMethod : Nat → String → Option (Bytes → GoError)
  DomainSeparationTag_ElectionProofProduction : Int
  DomainSeparationTag_TicketProduction : Int
  TicketRandomnessLookback : Int

/-- The comparison of the five cross-referenced fields (lines 91 to 95): true when the message
and the cached event differ in at least one of them. -/
def eventMismatch (requestEvent : OracleRequestEvent) (consensusMsg : ConsensusMessage) : Bool :=
  requestEvent.CallbackAddress != consensusMsg.CallbackAddress ||
  requestEvent.CallbackMethodID != consensusMsg.CallbackMethodID ||
  requestEvent.OriginChain != consensusMsg.Task.OriginChain ||
  requestEvent.RequestType != consensusMsg.Task.RequestType ||
  requestEvent.RequestParams != consensusMsg.Task.RequestParams

/-- Method `IsValidPrePrepare(prePrepare)`.  The results of the two `VerifyVRF` calls and of the
payload validator are only logged by the source, so they do not reach the verdict. -/
def IsValidPrePrepare (env : ValidationEnv) (prePrepare : PrePrepareMessage) : GoResult Bool :=
  let consensusMsg := prePrepare.Payload
  match env.verifyTaskSignature consensusMsg with
  | some _ => .returned false
  | none =>
  match env.GetOracleRequestEvent ("request_" ++ consensusMsg.RequestID) with
  | .error _ => .returned false
  | .ok requestEvent =>
  if eventMismatch requestEvent consensusMsg then .returned false
  else
  match consensusMsg.Task.ElectionProof with
  | none => .panicked
  | some electionProof =>
  if electionProof.WinCount < 1 then .returned false
  else
  match env.IsMinerEligibleToProposeTask (env.HexToAddress consensusMsg.Task.MinerEth) with
  | some _ => .returned false
  | none =>
  match env.MarshalBinary prePrepare.Payload.Task.Miner with
  | .error _ => .returned false
  | .ok minerAddressMarshalled =>
  match consensusMsg.Task.BeaconEntries.get? 1 with
  | none => .panicked
  | some beaconEntry =>
  match env.DrawRandomness beaconEntry.Data env.DomainSeparationTag_ElectionProofProduction
      consensusMsg.Task.DrandRound minerAddressMarshalled with
  | .error _ => .returned false
  | .ok electionProofRandomness =>
  let vrfErr := env.VerifyVRF consensusMsg.Task.Miner electionProofRandomness
    electionProof.VRFProof
  match env.DrawRandomness beaconEntry.Data env.DomainSeparationTag_TicketProduction
      (wrapInt (consensusMsg.Task.DrandRound - env.TicketRandomnessLookback))
      minerAddressMarshalled with
  | .error _ => .returned false
  | .ok ticketRandomness =>
  match consensusMsg.Task.Ticket with
  | none => .panicked
  | some ticket =>
  let ticketErr := env.VerifyVRF consensusMsg.Task.Miner ticketRandomness ticket.VRFProof
  match env.GetStakeInfo (env.HexToAddress consensusMsg.Task.MinerEth) with
  | .error _ => .returned false
  | .ok (mStake, nStake) =>
  let actualWinCount := env.ComputeWinCount electionProof mStake nStake
  if electionProof.WinCount != actualWinCount then .returned false
  else
  let payloadErr := (env.GetValidationMethod consensusMsg.Task.OriginChain
    consensusMsg.Task.RequestType).map (fun validationFunc =>
      validationFunc consensusMsg.Task.Payload)
  .returned true

/-! ## `pre_prepare_pool.go`: the message store -/

/-- The message store of the struct `PrePreparePool`: the map `prePrepareMsgs` from consensus
id to the stored messages (`none` is a missing key).  Its `miner` and `eventLogCache` are the
external services of `ValidationEnv`. -/
structure PrePreparePool where
  prePrepareMsgs : String → Option (List PrePrepareMessage)

/-- Map read `ppp.prePrepareMsgs[id]`: a missing key reads as the nil slice. -/
def poolGet (ppp : PrePreparePool) (consensusID : String) : List PrePrepareMessage :=
  match ppp.prePrepareMsgs consensusID with
  | some msgs => msgs
  | none => []

/-- Map write `ppp.prePrepareMsgs[id] = msgs`. -/
def poolSet (ppp : PrePreparePool) (consensusID : String) (msgs : List PrePrepareMessage) :
    PrePreparePool :=
  { prePrepareMsgs := fun k => if k = consensusID then some msgs else ppp.prePrepareMsgs k }

/-- Constructor `NewPrePreparePool`: the empty map. -/
def NewPrePreparePool : PrePreparePool :=
  { prePrepareMsgs := fun _ => none }

/-- Method `IsExistingPrePrepare(prepareMsg)`: the loop over the messages stored under the
consensus id of `prepareMsg` sets `exists` whenever a stored sender equals the sender of
`prepareMsg`.  The method only reads the pool. -/
def IsExistingPrePrepare (ppp : PrePreparePool) (prepareMsg : PrePrepareMessage) : Bool :=
  let consensusMessage := prepareMsg.Payload
  (poolGet ppp consensusMessage.ConsensusID).foldl
    (fun found v => if v.From = prepareMsg.From then true else found) false

/-- Method `AddPrePrepare(prePrepare)`: a missing key is first bound to the empty slice, then
the message is appended. -/
def AddPrePrepare (ppp : PrePreparePool) (prePrepare : PrePrepareMessage) : PrePreparePool :=
  let consensusID := prePrepare.Payload.ConsensusID
  let ppp1 :=
    match ppp.prePrepareMsgs consensusID with
    | none => poolSet ppp consensusID []
    | some _ => ppp
  poolSet ppp1 consensusID (poolGet ppp1 consensusID ++ [prePrepare])

/-! ## `miner.go` -/

/-- The struct `Miner`: its identity and the two stored stake figures (`types.BigInt`, an
unbounded integer).  The wallet, the beacon and the Ethereum client are the external services
of `MinerServices`. -/
structure Miner where
  address : String
  ethAddress : Bytes
  minerStake : Int
  networkStake : Int
  deriving DecidableEq, Repr

/-- The external calls of `miner.go`, each with the answer it gives: the beacon
(`beacon.BeaconEntriesForTask`), the two stake lookups of the Ethereum client, `ComputeVRF` over
the wallet, and `IsRoundWinner` (whose election proof may be nil). -/
structure MinerServices where
  BeaconEntriesForTask : Except String (List BeaconEntry)
  GetMinerStake : Bytes → Except String Int
  GetTotalStake : Except String Int
  ComputeVRF : String → Bytes → Except String Bytes
  IsRoundWinner : Int → String → BeaconEntry → Int → Int → Except String (Option ElectionProof)

/-- Whether a call returned a non-nil error. -/
def failed {α : Type} : Except String α → Bool
  | .error _ => true
  | .ok _ => false

/-- The conversion `types.DrandRound(round)` of a beacon round number (a 64-bit signed
integer, as in `IsValidPrePrepare`). -/
def toDrandRound (round : Nat) : Int := wrapInt round

/-- Method `UpdateCurrentStakeInfo()`: the miner after the call and the error returned. -/
def UpdateCurrentStakeInfo (svc : MinerServices) (m : Miner) : Miner × GoError :=
  match svc.GetMinerStake m.ethAddress with
  | .error err => (m, some err)
  | .ok mStake =>
    match svc.GetTotalStake with
    | .error err => (m, some err)
    | .ok nStake => ({ m with minerStake := mStake, networkStake := nStake }, none)

/-- The randomness `input` of `computeTicket` (lines 109 to 119): the marshalled address and
the draw over the beacon data, the ticket-production tag and the round minus the lookback. -/
def computeTicketInput (env : ValidationEnv) (m : Miner) (brand : BeaconEntry) :
    Except String Bytes :=
  match env.MarshalBinary m.address with
  | .error err => .error ("failed to marshal address: " ++ err)
  | .ok buf =>
    let round := toDrandRound brand.Round
    env.DrawRandomness brand.Data env.DomainSeparationTag_TicketProduction
      (wrapInt (round - env.TicketRandomnessLookback)) buf

/-- Method `computeTicket(ctx, brand)`: the VRF proof over `computeTicketInput`. -/
def computeTicket (env : ValidationEnv) (svc : MinerServices) (m : Miner) (brand : BeaconEntry) :
    Except String Ticket :=
  match computeTicketInput env m brand with
  | .error err => .error err
  | .ok input =>
    match svc.ComputeVRF m.address input with
    | .error err => .error err
    | .ok vrfOut => .ok { VRFProof := vrfOut }

/-- Method `MineTask(ctx, payload)`: the miner after the call and what the call returns: an
error, `(nil, nil)` (as `.ok none`) or a task; or a panic at `bvals[1]`. -/
def MineTask (env : ValidationEnv) (svc : MinerServices) (m : Miner) (payload : Bytes) :
    Miner × GoResult (Except String (Option DioneTask)) :=
  match svc.BeaconEntriesForTask with
  | .error err => (m, .returned (.error ("failed to get beacon entries: " ++ err)))
  | .ok bvals =>
    match bvals.get? 1 with
    | none => (m, .panicked)
    | some rbase =>
      match UpdateCurrentStakeInfo svc m with
      | (m1, some err) => (m1, .returned (.error ("failed to update miner stake: " ++ err)))
      | (m1, none) =>
        match computeTicket env svc m1 rbase with
        | .error err => (m1, .returned (.error ("scratching ticket failed: " ++ err)))
        | .ok ticket =>
          match svc.IsRoundWinner (toDrandRound rbase.Round) m1.address rbase m1.minerStake
              m1.networkStake with
          | .error err =>
            (m1, .returned (.error ("failed to check if we win next round: " ++ err)))
          | .ok none => (m1, .returned (.ok none))
          | .ok (some winner) =>
            (m1, .returned (.ok (some
              { OriginChain := 0, RequestType := "", RequestParams := "",
                Miner := m1.address, MinerEth := "", Ticket := some ticket,
                ElectionProof := some winner, BeaconEntries := bvals, DrandRound :=
                  toDrandRound rbase.Round, Payload := payload })))

/-- The ticket randomness `IsValidPrePrepare` re-derives from a task (lines 118 and 140 to
145): the marshalled `Task.Miner`, then the draw over `BeaconEntries[1].Data`, the
ticket-production tag and `DrandRound` minus the lookback.  A marshalling error is returned as
it is; a task with fewer than two beacon entries panics. -/
def verifierTicketRandomness (env : ValidationEnv) (task : DioneTask) :
    GoResult (Except String Bytes) :=
  match env.MarshalBinary task.Miner with
  | .error err => .returned (.error err)
  | .ok minerAddressMarshalled =>
    match task.BeaconEntries.get? 1 with
    | none => .panicked
    | some beaconEntry =>
      .returned (env.DrawRandomness beaconEntry.Data env.DomainSeparationTag_TicketProduction
        (wrapInt (task.DrandRound - env.TicketRandomnessLookback)) minerAddressMarshalled)

/-! ## `consensus.go`: which accesses happen under the mutex of the round

The handlers once more, line by line, with the bookkeeping of one goroutine: `data.mutex.Lock()`
and `Unlock()` set and clear `mutexHeld`, and every read or write of the map `Consensuses` or of
a field of the round is logged with the value `mutexHeld` has at that line.  `data.mutex` is the
only lock of `consensus.go`. -/

/-- The shared variables the handlers read and write. -/
inductive SharedVar where
  | Consensuses
  | preparedCount
  | commitCount
  | State
  | result
  deriving DecidableEq, Repr

/-- One access: source line, variable, write or read, and whether the goroutine holds the mutex
of the round at that line. -/
structure Access where
  line : Nat
  var : SharedVar
  isWrite : Bool
  mutexHeld : Bool
  deriving DecidableEq, Repr

/-- The bookkeeping of a goroutine: whether it holds `data.mutex`, and its accesses so far. -/
structure LockLog where
  mutexHeld : Bool
  accesses : List Access
  deriving DecidableEq, Repr

/-- The call `data.mutex.Lock()`. -/
def LockLog.lock (g : LockLog) : LockLog := { g with mutexHeld := true }

/-- The call `data.mutex.Unlock()`. -/
def LockLog.unlock (g : LockLog) : LockLog := { g with mutexHeld := false }

/-- A read of `var` at `line`. -/
def LockLog.read (g : LockLog) (line : Nat) (var : SharedVar) : LockLog :=
  { g with accesses := g.accesses ++ [{ line := line, var := var, isWrite := false,
                                        mutexHeld := g.mutexHeld }] }

/-- A write of `var` at `line`. -/
def LockLog.write (g : LockLog) (line : Nat) (var : SharedVar) : LockLog :=
  { g with accesses := g.accesses ++ [{ line := line, var := var, isWrite := true,
                                        mutexHeld := g.mutexHeld }] }

/-- The accesses made while the mutex of the round is not held. -/
def unguarded (accesses : List Access) : List Access :=
  accesses.filter (fun a => !a.mutexHeld)

/-- Method `NewTestConsensus` with its accesses: the map insert of line 52 and the write of
`State` at line 63, after the round has been published in the map. -/
def NewTestConsensusLogged (pcm : PBFTConsensusManager) (bcastOk : Bool) (data : String)
    (consensusID : String) (onConsensusFinishCallback : Option Nat) : Outcome × List Access :=
  let g0 : LockLog := { mutexHeld := false, accesses := [] }
  let g1 := g0.write 52 .Consensuses
  let g2 := g1.write 63 .State
  (NewTestConsensus pcm bcastOk data consensusID onConsensusFinishCallback, g2.accesses)

/-- Method `handlePreparedMessage` with its accesses: `Lock` at line 91, `Unlock` at line 93. -/
def handlePreparedMessageLogged (pcm : PBFTConsensusManager) (bcastOk : Bool)
    (message : Message) : Outcome × List Access :=
  let g0 : LockLog := { mutexHeld := false, accesses := [] }
  match payloadGet message.Payload "consensusID" with
  | .str consensusID =>
    let g1 := g0.read 70 .Consensuses
    match pcm.Consensuses consensusID with
    | none => ({ pcm := pcm, broadcasts := [], callbacks := [], panicked := false }, g1.accesses)
    | some data =>
      let g2 := g1.read 75 .Consensuses
      let g3 := g2.lock
      let g4 := (g3.read 92 .preparedCount).write 92 .preparedCount
      let data1 := { data with preparedCount := intAdd data.preparedCount 1 }
      let pcm1 := setConsensus pcm consensusID data1
      let g5 := g4.unlock
      let g6 := g5.read 95 .preparedCount
      if data1.preparedCount > intAdd (intMul 2 pcm.maxFaultNodes) 1 then
        let msg : Message :=
          { Type_ := "commit",
            Payload := payloadSet (payloadSet [] "consensusID" (.str consensusID)) "data"
              (payloadGet message.Payload "data") }
        if bcastOk then
          let g7 := g6.write 106 .State
          ({ pcm := setConsensus pcm1 consensusID { data1 with State := .consensusPrepared },
             broadcasts := [msg], callbacks := [], panicked := false }, g7.accesses)
        else
          ({ pcm := pcm1, broadcasts := [msg], callbacks := [], panicked := false },
           g6.accesses)
      else
        ({ pcm := pcm1, broadcasts := [], callbacks := [], panicked := false }, g6.accesses)
  | _ => ({ pcm := pcm, broadcasts := [], callbacks := [], panicked := true }, g0.accesses)

/-- Method `handleCommitMessage` with its accesses: `Lock` at line 120, the deferred `Unlock`
runs when the method returns. -/
def handleCommitMessageLogged (pcm : PBFTConsensusManager) (message : Message) :
    Outcome × List Access :=
  let g0 : LockLog := { mutexHeld := false, accesses := [] }
  match payloadGet message.Payload "consensusID" with
  | .str consensusID =>
    let g1 := g0.read 114 .Consensuses
    match pcm.Consensuses consensusID with
    | none => ({ pcm := pcm, broadcasts := [], callbacks := [], panicked := false }, g1.accesses)
    | some data =>
      let g2 := g1.read 118 .Consensuses
      let g3 := g2.lock
      let g4 := g3.read 122 .State
      if data.State = .consensusCommitted then
        ({ pcm := pcm, broadcasts := [], callbacks := [], panicked := false },
         g4.unlock.accesses)
      else
        let g5 := (g4.read 129 .commitCount).write 129 .commitCount
        let data1 := { data with commitCount := intAdd data.commitCount 1 }
        let pcm1 := setConsensus pcm consensusID data1
        let g6 := g5.read 131 .commitCount
        if data1.commitCount > intAdd (intMul 2 pcm.maxFaultNodes) 1 then
          let g7 := g6.write 132 .State
          let data2 := { data1 with State := .consensusCommitted }
          match payloadGet message.Payload "data" with
          | .str d =>
            let g8 := g7.write 133 .result
            let data3 := { data2 with result := d }
            let pcm3 := setConsensus pcm1 consensusID data3
            let g9 := (g8.read 134 .result).read 135 .result
            match data3.onConsensusFinishCallback with
            | some cb =>
              ({ pcm := pcm3, broadcasts := [], callbacks := [(cb, data3.result)],
                 panicked := false }, g9.unlock.accesses)
            | none =>
              ({ pcm := pcm3, broadcasts := [], callbacks := [], panicked := true },
               g9.unlock.accesses)
          | _ =>
            ({ pcm := setConsensus pcm1 consensusID data2, broadcasts := [], callbacks := [],
               panicked := true }, g7.unlock.accesses)
        else
          ({ pcm := pcm1, broadcasts := [], callbacks := [], panicked := false },
           g6.unlock.accesses)
  | _ => ({ pcm := pcm, broadcasts := [], callbacks := [], panicked := true }, g0.accesses)

/-- The deliveries of a second run in which round "r1" finishes twice, handled one after the
other. -/
def finishedAgain : List Delivery :=
  [.prepared (preparedMsg "r1" "a") true, .commit (commitMsg "r1" "a"),
   .commit (commitMsg "r1" "a"), .prepared (preparedMsg "r1" "a") true,
   .commit (commitMsg "r1" "b")]

/-- The deliveries of the run in which round "r1" finishes twice. -/
def twiceFinished : List Delivery :=
  [.commit (commitMsg "r1" "a"), .commit (commitMsg "r1" "a"),
   .prepared (preparedMsg "r1" "a") true, .prepared (preparedMsg "r1" "a") true,
   .commit (commitMsg "r1" "b")]

/-- Round "r1" of a fresh manager after one prepared and two commit messages: Committed. -/
def committedR1 : PBFTConsensusManager :=
  (deliverAll (startedR1 0)
    [.prepared (preparedMsg "r1" "a") true, .commit (commitMsg "r1" "a"),
     .commit (commitMsg "r1" "a")]).pcm

/-- Round "r1" of a fresh manager after one commit message: one commit vote, not Committed. -/
def oneCommitR1 : PBFTConsensusManager :=
  (handleCommitMessage (startedR1 0) (commitMsg "r1" "a")).pcm

/-- The record of round "r1" in `oneCommitR1`. -/
def oneCommitData : ConsensusData :=
  { preparedCount := 0, commitCount := 1, State := .consensusPrePrepared, result := "",
    test := true, onConsensusFinishCallback := some 7 }

/-- Round "r1" of a fresh manager after one prepared message: one prepared vote. -/
def onePreparedR1 : PBFTConsensusManager :=
  (handlePreparedMessage (startedR1 0) true (preparedMsg "r1" "a")).pcm

/-- The record of round "r1" in `onePreparedR1`. -/
def onePreparedData : ConsensusData :=
  { preparedCount := 1, commitCount := 0, State := .consensusPrePrepared, result := "",
    test := true, onConsensusFinishCallback := some 7 }

/-- An environment in which every external check succeeds and the cached event of every
request is the same fixed one. -/
def sampleEnv : ValidationEnv :=
  { verifyTaskSignature := fun _ => none
    GetOracleRequestEvent := fun _ =>
      .ok { CallbackAddress := [1, 2], CallbackMethodID := [3], OriginChain := 1,
            RequestType := "GetTransaction", RequestParams := "abc" }
    HexToAddress := fun s => s.toList.map Char.toNat
    IsMinerEligibleToProposeTask := fun _ => none
    MarshalBinary := fun s => .ok (s.toList.map Char.toNat)
    DrawRandomness := fun d t r m => .ok (d ++ m)
    VerifyVRF := fun _ _ _ => none
    GetStakeInfo := fun _ => .ok (1, 10)
    ComputeWinCount := fun _ _ _ => 1
    GetValidationMethod := fun _ _ => none
    DomainSeparationTag_ElectionProofProduction := 2
    DomainSeparationTag_TicketProduction := 1
    TicketRandomnessLookback := 1 }

/-- The fixed cached event of `sampleEnv`. -/
def sampleEvent : OracleRequestEvent :=
  { CallbackAddress := [1, 2], CallbackMethodID := [3], OriginChain := 1,
    RequestType := "GetTransaction", RequestParams := "abc" }

/-- A pre-prepare message that agrees with `sampleEvent` except in the request params. -/
def otherParamsMsg : PrePrepareMessage :=
  { From := "peerA"
    Payload :=
      { ConsensusID := "c1", RequestID := "7", CallbackAddress := [1, 2],
        CallbackMethodID := [3], Signature := [9]
        Task :=
          { OriginChain := 1, RequestType := "GetTransaction", RequestParams := "abd",
            Miner := "peerA", MinerEth := "0x01", Ticket := some { VRFProof := [4] },
            ElectionProof := some { WinCount := 1, VRFProof := [5] },
            BeaconEntries := [{ Round := 9, Data := [6] }, { Round := 10, Data := [7] }],
            DrandRound := 10, Payload := [8] } } }

/-- A pre-prepare message that agrees with `sampleEvent` in all five fields and passes every
check of `sampleEnv`. -/
def matchingMsg : PrePrepareMessage :=
  { From := "peerA"
    Payload :=
      { ConsensusID := "c1", RequestID := "7", CallbackAddress := [1, 2],
        CallbackMethodID := [3], Signature := [9]
        Task :=
          { OriginChain := 1, RequestType := "GetTransaction", RequestParams := "abc",
            Miner := "peerA", MinerEth := "0x01", Ticket := some { VRFProof := [4] },
            ElectionProof := some { WinCount := 1, VRFProof := [5] },
            BeaconEntries := [{ Round := 9, Data := [6] }, { Round := 10, Data := [7] }],
            DrandRound := 10, Payload := [8] } } }

/-- The message `matchingMsg` with another task. -/
def withTask (task : DioneTask) : PrePrepareMessage :=
  { matchingMsg with Payload := { matchingMsg.Payload with Task := task } }

/-- The message `matchingMsg` claiming a win count of 2. -/
def twoWinsMsg : PrePrepareMessage :=
  withTask { matchingMsg.Payload.Task with
    ElectionProof := some { WinCount := 2, VRFProof := [5] } }

/-- The message `matchingMsg` carrying one beacon entry only. -/
def oneBeaconMsg : PrePrepareMessage :=
  withTask { matchingMsg.Payload.Task with BeaconEntries := [{ Round := 10, Data := [7] }] }

/-- The message `matchingMsg` with a nil ticket. -/
def noTicketMsg : PrePrepareMessage :=
  withTask { matchingMsg.Payload.Task with Ticket := none }

/-- The environment `sampleEnv` with a `VerifyVRF` that rejects every proof. -/
def vrfRejectingEnv : ValidationEnv :=
  { sampleEnv with VerifyVRF := fun _ _ _ => some "vrf proof is invalid" }

/-- A second message of `peerA` for consensus "c1", with another signature. -/
def resentMsg : PrePrepareMessage :=
  { matchingMsg with Payload := { matchingMsg.Payload with Signature := [10] } }

/-- A message of `peerB` for consensus "c2". -/
def peerBMsg : PrePrepareMessage :=
  { From := "peerB", Payload := { matchingMsg.Payload with ConsensusID := "c2" } }

/-- A pool holding `matchingMsg` under "c1" and `peerBMsg` under "c2". -/
def samplePool : PrePreparePool :=
  AddPrePrepare (AddPrePrepare NewPrePreparePool matchingMsg) peerBMsg

/-- A miner with stored stake figures 3 and 30. -/
def sampleMiner : Miner :=
  { address := "peerA", ethAddress := [1], minerStake := 3, networkStake := 30 }

/-- Services that all answer: two beacon entries, stakes 5 and 50, a VRF proof, a win. -/
def sampleServices : MinerServices :=
  { BeaconEntriesForTask := .ok [{ Round := 9, Data := [6] }, { Round := 10, Data := [7] }]
    GetMinerStake := fun _ => .ok 5
    GetTotalStake := .ok 50
    ComputeVRF := fun _ input => .ok (0 :: input)
    IsRoundWinner := fun _ _ _ _ _ => .ok (some { WinCount := 1, VRFProof := [5] }) }

/-- The services `sampleServices` with a failing network-stake lookup. -/
def noTotalStakeServices : MinerServices :=
  { sampleServices with GetTotalStake := .error "no connection" }

/-- The services `sampleServices` with a beacon that returns one entry and no error. -/
def oneEntryServices : MinerServices :=
  { sampleServices with BeaconEntriesForTask := .ok [{ Round := 10, Data := [7] }] }

/-- Round "r1" registered with a nil callback on a fresh manager, after one commit message. -/
def nilCallbackR1 : PBFTConsensusManager :=
  (handleCommitMessage
    (NewTestConsensus (NewPBFTConsensusManager 0) true "test" "r1" none).pcm
    (commitMsg "r1" "a")).pcm

/-- The record of round "r1" in `nilCallbackR1`. -/
def nilCallbackData : ConsensusData :=
  { preparedCount := 0, commitCount := 1, State := .consensusPrePrepared, result := "",
    test := true, onConsensusFinishCallback := none }

/-! ## Arithmetic helpers -/

theorem wrapInt_of_inRange {x : Int} (h : InIntRange x) : wrapInt x = x := by
  unfold InIntRange at h
  unfold wrapInt
  omega

theorem intAdd_one_of_inRange {c : Int} (h : InIntRange (c + 1)) : intAdd c 1 = c + 1 := by
  unfold intAdd
  exact wrapInt_of_inRange h

theorem threshold_of_inRange {f : Int} (h : InIntRange (2 * f + 1)) :
    intAdd (intMul 2 f) 1 = 2 * f + 1 := by
  unfold InIntRange at h
  unfold intAdd intMul wrapInt
  omega

theorem payloadGet_built_consensusID (consensusID : String) (v : Value) :
    payloadGet (payloadSet (payloadSet [] "consensusID" (.str consensusID)) "data" v)
      "consensusID" = .str consensusID := by
  simp [payloadGet, payloadSet, List.lookup]

theorem payloadGet_built_data (consensusID : String) (v : Value) :
    payloadGet (payloadSet (payloadSet [] "consensusID" (.str consensusID)) "data" v)
      "data" = v := by
  simp [payloadGet, payloadSet, List.lookup]

/-! ## The vote tally -/

/-- C1 (the code breaks it): on a manager from the constructor with round "r1" started by
`NewTestConsensus`, the deliveries commit, commit, prepared, prepared, commit invoke the finish
callback twice, with "a" and then with "b", and the result of the round is "a" after the second
message and "b" after the fifth; no call panics. -/
theorem C1_round_finishes_twice :
    callsOf 7 (deliverAll (startedR1 0) twiceFinished) = ["a", "b"] ∧
    resultOf (deliverAll (startedR1 0) (twiceFinished.take 2)).pcm "r1" = some "a" ∧
    resultOf (deliverAll (startedR1 0) twiceFinished).pcm "r1" = some "b" ∧
    (deliverAll (startedR1 0) twiceFinished).panicked = false := by
  decide

/-- C2 (the code breaks it): a round that is Committed is put back to Prepared by one
`handlePreparedMessage` step whose broadcast succeeds, and Prepared is below Committed. -/
theorem C2_prepared_step_regresses_committed :
    stateOf committedR1 "r1" = some .consensusCommitted ∧
    stateOf (handlePreparedMessage committedR1 true (preparedMsg "r1" "a")).pcm "r1" =
      some .consensusPrepared ∧
    ConsensusState.consensusPrepared.toInt < ConsensusState.consensusCommitted.toInt := by
  decide

/-- C3 (the code breaks it): the constructor leaves `maxFaultNodes` at zero whatever bound it is
given; with f = 1 the finish callback is not invoked on the first commit message and is invoked
on the second, with that message's data. -/
theorem C3_constructor_ignores_fault_bound :
    (∀ f : Int, (NewPBFTConsensusManager f).maxFaultNodes = 0) ∧
    callsOf 7 (deliverAll (startedR1 1) [.commit (commitMsg "r1" "a")]) = [] ∧
    callsOf 7 (deliverAll (startedR1 1)
      [.commit (commitMsg "r1" "a"), .commit (commitMsg "r1" "b")]) = ["b"] := by
  refine ⟨fun f => rfl, ?_, ?_⟩ <;> decide

/-- C4 as stated fails: round "r1" registered by `NewTestConsensus` with a nil callback, fault
bound 0 and one commit vote tallied; a commit message with data "b" makes the count 2 > 2f+1 = 1,
State is set to Committed and result to "b", and then the call of the nil callback panics: no
callback is invoked. -/
theorem C4_nil_callback_panics :
    nilCallbackR1.Consensuses "r1" = some nilCallbackData ∧
    nilCallbackData.State ≠ .consensusCommitted ∧
    nilCallbackR1.maxFaultNodes = 0 ∧
    nilCallbackData.commitCount + 1 > 2 * nilCallbackR1.maxFaultNodes + 1 ∧
    (handleCommitMessage nilCallbackR1 (commitMsg "r1" "b")).panicked = true ∧
    (handleCommitMessage nilCallbackR1 (commitMsg "r1" "b")).callbacks = [] ∧
    (handleCommitMessage nilCallbackR1 (commitMsg "r1" "b")).pcm.Consensuses "r1" =
      some { nilCallbackData with commitCount := 2, State := .consensusCommitted,
                                  result := "b" } := by
  decide

/-- C4 amended: on a registered round that is not Committed, `handleCommitMessage` with string
payload data `d` adds one to `commitCount` and leaves `preparedCount`, the other rounds, the
fault bound and the broadcasts alone; above the threshold `2f+1`, when the callback of the round
is not nil, it sets State to Committed and result to `d` and invokes the callback once with `d`
without panicking; at or below the threshold State and result stay, no callback is invoked and
the call does not panic.  The counts are taken within the range of a Go `int`. -/
theorem C4_handleCommitMessage_counts (pcm : PBFTConsensusManager) (message : Message)
    (consensusID d : String) (data : ConsensusData)
    (hid : payloadGet message.Payload "consensusID" = .str consensusID)
    (hd : payloadGet message.Payload "data" = .str d)
    (hreg : pcm.Consensuses consensusID = some data)
    (hstate : data.State ≠ .consensusCommitted)
    (hc : InIntRange (data.commitCount + 1))
    (hf : InIntRange (2 * pcm.maxFaultNodes + 1)) :
    (handleCommitMessage pcm message).broadcasts = [] ∧
    (handleCommitMessage pcm message).pcm.maxFaultNodes = pcm.maxFaultNodes ∧
    (∀ k, k ≠ consensusID →
      (handleCommitMessage pcm message).pcm.Consensuses k = pcm.Consensuses k) ∧
    (∃ after, (handleCommitMessage pcm message).pcm.Consensuses consensusID = some after ∧
      after.commitCount = data.commitCount + 1 ∧
      after.preparedCount = data.preparedCount) ∧
    (data.commitCount + 1 > 2 * pcm.maxFaultNodes + 1 →
      ∀ cb, data.onConsensusFinishCallback = some cb →
        (handleCommitMessage pcm message).panicked = false ∧
        (handleCommitMessage pcm message).pcm.Consensuses consensusID =
          some { data with commitCount := data.commitCount + 1,
                           State := .consensusCommitted, result := d } ∧
        (handleCommitMessage pcm message).callbacks = [(cb, d)]) ∧
    (data.commitCount + 1 ≤ 2 * pcm.maxFaultNodes + 1 →
      (handleCommitMessage pcm message).panicked = false ∧
      (handleCommitMessage pcm message).pcm.Consensuses consensusID =
        some { data with commitCount := data.commitCount + 1 } ∧
      (handleCommitMessage pcm message).callbacks = []) := by
  have hthr := threshold_of_inRange hf
  have hcnt := intAdd_one_of_inRange hc
  by_cases hgt : data.commitCount + 1 > 2 * pcm.maxFaultNodes + 1
  · have hle : ¬ data.commitCount + 1 ≤ 2 * pcm.maxFaultNodes + 1 := by omega
    cases hcb : data.onConsensusFinishCallback with
    | none =>
      simp [handleCommitMessage, hid, hd, hreg, hstate, hcb, hthr, hcnt, hgt, hle, setConsensus]
      intro k hk
      simp [hk]
    | some cb =>
      simp [handleCommitMessage, hid, hd, hreg, hstate, hcb, hthr, hcnt, hgt, hle, setConsensus]
      intro k hk
      simp [hk]
  · have hle : data.commitCount + 1 ≤ 2 * pcm.maxFaultNodes + 1 := by omega
    simp [handleCommitMessage, hid, hreg, hstate, hthr, hcnt, hgt, hle, setConsensus]
    intro k hk
    simp [hk]

/-- Witness of C4 amended: the second commit message for round "r1" (callback 7) on a manager
with fault bound 0. -/
theorem C4_handleCommitMessage_counts_witness :
    (payloadGet (commitMsg "r1" "b").Payload "consensusID" = .str "r1" ∧
     payloadGet (commitMsg "r1" "b").Payload "data" = .str "b" ∧
     oneCommitR1.Consensuses "r1" = some oneCommitData ∧
     oneCommitData.State ≠ .consensusCommitted ∧
     InIntRange (oneCommitData.commitCount + 1) ∧
     InIntRange (2 * oneCommitR1.maxFaultNodes + 1)) ∧
    ((handleCommitMessage oneCommitR1 (commitMsg "r1" "b")).broadcasts = [] ∧
     (handleCommitMessage oneCommitR1 (commitMsg "r1" "b")).pcm.maxFaultNodes =
       oneCommitR1.maxFaultNodes ∧
     (∀ k, k ≠ "r1" →
       (handleCommitMessage oneCommitR1 (commitMsg "r1" "b")).pcm.Consensuses k =
         oneCommitR1.Consensuses k) ∧
     (∃ after, (handleCommitMessage oneCommitR1 (commitMsg "r1" "b")).pcm.Consensuses "r1" =
         some after ∧
       after.commitCount = oneCommitData.commitCount + 1 ∧
       after.preparedCount = oneCommitData.preparedCount) ∧
     (oneCommitData.commitCount + 1 > 2 * oneCommitR1.maxFaultNodes + 1 →
       ∀ cb, oneCommitData.onConsensusFinishCallback = some cb →
         (handleCommitMessage oneCommitR1 (commitMsg "r1" "b")).panicked = false ∧
         (handleCommitMessage oneCommitR1 (commitMsg "r1" "b")).pcm.Consensuses "r1" =
           some { oneCommitData with commitCount := oneCommitData.commitCount + 1,
                                     State := .consensusCommitted, result := "b" } ∧
         (handleCommitMessage oneCommitR1 (commitMsg "r1" "b")).callbacks = [(cb, "b")]) ∧
     (oneCommitData.commitCount + 1 ≤ 2 * oneCommitR1.maxFaultNodes + 1 →
       (handleCommitMessage oneCommitR1 (commitMsg "r1" "b")).panicked = false ∧
       (handleCommitMessage oneCommitR1 (commitMsg "r1" "b")).pcm.Consensuses "r1" =
         some { oneCommitData with commitCount := oneCommitData.commitCount + 1 } ∧
       (handleCommitMessage oneCommitR1 (commitMsg "r1" "b")).callbacks = [])) :=
  ⟨⟨by decide, by decide, by decide, by decide, by decide, by decide⟩,
   C4_handleCommitMessage_counts oneCommitR1 (commitMsg "r1" "b") "r1" "b" oneCommitData
     (by decide) (by decide) (by decide) (by decide) (by decide) (by decide)⟩

/-- C5: on a registered round whose State is Committed, `handleCommitMessage` returns the manager
unchanged (so every count, State and result of every round is unchanged), invokes no callback,
broadcasts nothing and does not panic; the same holds for any number of repetitions. -/
theorem C5_handleCommitMessage_committed_noop (pcm : PBFTConsensusManager) (message : Message)
    (consensusID : String) (data : ConsensusData)
    (hid : payloadGet message.Payload "consensusID" = .str consensusID)
    (hreg : pcm.Consensuses consensusID = some data)
    (hstate : data.State = .consensusCommitted) :
    handleCommitMessage pcm message =
      { pcm := pcm, broadcasts := [], callbacks := [], panicked := false } ∧
    ∀ n : Nat, deliverAll pcm (List.replicate n (.commit message)) =
      { pcm := pcm, broadcasts := [], callbacks := [], panicked := false } := by
  have h1 : handleCommitMessage pcm message =
      { pcm := pcm, broadcasts := [], callbacks := [], panicked := false } := by
    simp [handleCommitMessage, hid, hreg, hstate]
  refine ⟨h1, ?_⟩
  intro n
  induction n with
  | zero => rfl
  | succ n ih => simp [List.replicate_succ, deliverAll, deliver, h1, ih]

/-- Witness of C5: a late commit message on the Committed round "r1". -/
theorem C5_handleCommitMessage_committed_noop_witness :
    (payloadGet (commitMsg "r1" "z").Payload "consensusID" = .str "r1" ∧
     committedR1.Consensuses "r1" = some
       { preparedCount := 1, commitCount := 2, State := .consensusCommitted, result := "a",
         test := true, onConsensusFinishCallback := some 7 }) ∧
    (handleCommitMessage committedR1 (commitMsg "r1" "z") =
      { pcm := committedR1, broadcasts := [], callbacks := [], panicked := false } ∧
     ∀ n : Nat, deliverAll committedR1 (List.replicate n (.commit (commitMsg "r1" "z"))) =
      { pcm := committedR1, broadcasts := [], callbacks := [], panicked := false }) :=
  ⟨⟨by decide, by decide⟩,
   C5_handleCommitMessage_committed_noop committedR1 (commitMsg "r1" "z") "r1"
     { preparedCount := 1, commitCount := 2, State := .consensusCommitted, result := "a",
       test := true, onConsensusFinishCallback := some 7 }
     (by decide) (by decide) rfl⟩

/-- C6 (the code breaks it): with fault bound 0 and three prepared messages for round "r1", every
broadcast succeeding, two "commit" messages are broadcast (one on the second message and one
more on the third), where the threshold 2f+1 = 1 is exceeded once. -/
theorem C6_commit_broadcast_repeats :
    (startedR1 0).maxFaultNodes = 0 ∧
    commitBroadcasts (deliverAll (startedR1 0)
      [.prepared (preparedMsg "r1" "a") true, .prepared (preparedMsg "r1" "a") true]) = 1 ∧
    commitBroadcasts (deliverAll (startedR1 0)
      [.prepared (preparedMsg "r1" "a") true, .prepared (preparedMsg "r1" "a") true,
       .prepared (preparedMsg "r1" "a") true]) = 2 := by
  decide

/-- C7 as stated fails: with fault bound 0 and one prepared vote tallied, a prepared message
whose commit broadcast fails makes the count 2 > 2f+1 = 1, broadcasts one message, and leaves
State at PrePrepared instead of Prepared. -/
theorem C7_failed_broadcast_keeps_state :
    onePreparedR1.Consensuses "r1" = some onePreparedData ∧
    onePreparedR1.maxFaultNodes = 0 ∧
    onePreparedData.preparedCount + 1 > 2 * onePreparedR1.maxFaultNodes + 1 ∧
    (handlePreparedMessage onePreparedR1 false (preparedMsg "r1" "a")).broadcasts.length = 1 ∧
    stateOf (handlePreparedMessage onePreparedR1 false (preparedMsg "r1" "a")).pcm "r1" =
      some .consensusPrePrepared ∧
    stateOf (handlePreparedMessage onePreparedR1 false (preparedMsg "r1" "a")).pcm "r1" ≠
      some .consensusPrepared := by
  decide

/-- C7 amended: on a known round `handlePreparedMessage` adds one to `preparedCount` and leaves
`commitCount`, result, the other rounds and the fault bound alone, invokes no callback and does
not panic; above the threshold `2f+1` it broadcasts one message of type "commit" carrying the
same consensusID and the same data as the received message, and sets State to Prepared when
that broadcast succeeds (State is unchanged when it fails); at or below the threshold it
broadcasts nothing and leaves State unchanged.  The counts are taken within the range of a Go
`int`. -/
theorem C7_handlePreparedMessage_counts (pcm : PBFTConsensusManager) (bcastOk : Bool)
    (message : Message) (consensusID : String) (data : ConsensusData)
    (hid : payloadGet message.Payload "consensusID" = .str consensusID)
    (hreg : pcm.Consensuses consensusID = some data)
    (hp : InIntRange (data.preparedCount + 1))
    (hf : InIntRange (2 * pcm.maxFaultNodes + 1)) :
    (handlePreparedMessage pcm bcastOk message).panicked = false ∧
    (handlePreparedMessage pcm bcastOk message).callbacks = [] ∧
    (handlePreparedMessage pcm bcastOk message).pcm.maxFaultNodes = pcm.maxFaultNodes ∧
    (∀ k, k ≠ consensusID →
      (handlePreparedMessage pcm bcastOk message).pcm.Consensuses k = pcm.Consensuses k) ∧
    (data.preparedCount + 1 > 2 * pcm.maxFaultNodes + 1 →
      (handlePreparedMessage pcm bcastOk message).pcm.Consensuses consensusID =
        some { data with preparedCount := data.preparedCount + 1,
                         State := if bcastOk then .consensusPrepared else data.State } ∧
      ∃ msg, (handlePreparedMessage pcm bcastOk message).broadcasts = [msg] ∧
        msg.Type_ = "commit" ∧
        payloadGet msg.Payload "consensusID" = .str consensusID ∧
        payloadGet msg.Payload "data" = payloadGet message.Payload "data") ∧
    (data.preparedCount + 1 ≤ 2 * pcm.maxFaultNodes + 1 →
      (handlePreparedMessage pcm bcastOk message).pcm.Consensuses consensusID =
        some { data with preparedCount := data.preparedCount + 1 } ∧
      (handlePreparedMessage pcm bcastOk message).broadcasts = []) := by
  have hthr := threshold_of_inRange hf
  have hcnt := intAdd_one_of_inRange hp
  by_cases hgt : data.preparedCount + 1 > 2 * pcm.maxFaultNodes + 1
  · have hle : ¬ data.preparedCount + 1 ≤ 2 * pcm.maxFaultNodes + 1 := by omega
    cases bcastOk <;>
      simp [handlePreparedMessage, hid, hreg, hthr, hcnt, hgt, hle, setConsensus,
        payloadGet_built_consensusID, payloadGet_built_data] <;>
      · intro k hk
        simp [hk]
  · have hle : data.preparedCount + 1 ≤ 2 * pcm.maxFaultNodes + 1 := by omega
    simp [handlePreparedMessage, hid, hreg, hthr, hcnt, hgt, hle, setConsensus]
    intro k hk
    simp [hk]

/-- Witness of C7 amended: the second prepared message for round "r1" on a manager with fault
bound 0, its broadcast succeeding. -/
theorem C7_handlePreparedMessage_counts_witness :
    (payloadGet (preparedMsg "r1" "a").Payload "consensusID" = .str "r1" ∧
     onePreparedR1.Consensuses "r1" = some onePreparedData ∧
     InIntRange (onePreparedData.preparedCount + 1) ∧
     InIntRange (2 * onePreparedR1.maxFaultNodes + 1)) ∧
    ((handlePreparedMessage onePreparedR1 true (preparedMsg "r1" "a")).panicked = false ∧
     (handlePreparedMessage onePreparedR1 true (preparedMsg "r1" "a")).callbacks = [] ∧
     (handlePreparedMessage onePreparedR1 true (preparedMsg "r1" "a")).pcm.maxFaultNodes =
       onePreparedR1.maxFaultNodes ∧
     (∀ k, k ≠ "r1" →
       (handlePreparedMessage onePreparedR1 true (preparedMsg "r1" "a")).pcm.Consensuses k =
         onePreparedR1.Consensuses k) ∧
     (onePreparedData.preparedCount + 1 > 2 * onePreparedR1.maxFaultNodes + 1 →
       (handlePreparedMessage onePreparedR1 true (preparedMsg "r1" "a")).pcm.Consensuses "r1" =
         some { onePreparedData with
                  preparedCount := onePreparedData.preparedCount + 1,
                  State := if true then .consensusPrepared else onePreparedData.State } ∧
       ∃ msg, (handlePreparedMessage onePreparedR1 true (preparedMsg "r1" "a")).broadcasts =
           [msg] ∧
         msg.Type_ = "commit" ∧
         payloadGet msg.Payload "consensusID" = .str "r1" ∧
         payloadGet msg.Payload "data" = payloadGet (preparedMsg "r1" "a").Payload "data") ∧
     (onePreparedData.preparedCount + 1 ≤ 2 * onePreparedR1.maxFaultNodes + 1 →
       (handlePreparedMessage onePreparedR1 true (preparedMsg "r1" "a")).pcm.Consensuses "r1" =
         some { onePreparedData with preparedCount := onePreparedData.preparedCount + 1 } ∧
       (handlePreparedMessage onePreparedR1 true (preparedMsg "r1" "a")).broadcasts = [])) :=
  ⟨⟨by decide, by decide, by decide, by decide⟩,
   C7_handlePreparedMessage_counts onePreparedR1 true (preparedMsg "r1" "a") "r1"
     onePreparedData (by decide) (by decide) (by decide) (by decide)⟩

/-- C8: a prepared or commit message whose string consensusID is not a key of `Consensuses` is
dropped by `handlePreparedMessage` and by `handleCommitMessage`: the manager is returned
unchanged, no callback is invoked, nothing is broadcast and the call does not panic. -/
theorem C8_unknown_round_dropped (pcm : PBFTConsensusManager) (bcastOk : Bool)
    (message : Message) (consensusID : String)
    (hid : payloadGet message.Payload "consensusID" = .str consensusID)
    (hunknown : pcm.Consensuses consensusID = none) :
    handlePreparedMessage pcm bcastOk message =
      { pcm := pcm, broadcasts := [], callbacks := [], panicked := false } ∧
    handleCommitMessage pcm message =
      { pcm := pcm, broadcasts := [], callbacks := [], panicked := false } := by
  constructor
  · simp [handlePreparedMessage, hid, hunknown]
  · simp [handleCommitMessage, hid, hunknown]

/-- Witness of C8: a message for round "r2" on a manager that only knows round "r1". -/
theorem C8_unknown_round_dropped_witness :
    (payloadGet (commitMsg "r2" "a").Payload "consensusID" = .str "r2" ∧
     (startedR1 0).Consensuses "r2" = none) ∧
    (handlePreparedMessage (startedR1 0) true (commitMsg "r2" "a") =
      { pcm := startedR1 0, broadcasts := [], callbacks := [], panicked := false } ∧
     handleCommitMessage (startedR1 0) (commitMsg "r2" "a") =
      { pcm := startedR1 0, broadcasts := [], callbacks := [], panicked := false }) :=
  ⟨⟨by decide, by decide⟩,
   C8_unknown_round_dropped (startedR1 0) true (commitMsg "r2" "a") "r2" (by decide)
     (by decide)⟩

/-- C9: `NewTestConsensus(data, id, cb)` binds `Consensuses[id]` to a fresh round (State
PrePrepared, both counts 0, empty result, callback `cb`), leaves the entries under other ids and
the fault bound unchanged, hands exactly one message to the broadcast, of type "prepared" with
consensusID `id` and data `data`, and invokes no callback; all of this whether the broadcast
succeeds or fails. -/
theorem C9_NewTestConsensus_registers (pcm : PBFTConsensusManager) (bcastOk : Bool)
    (data consensusID : String) (cb : Option Nat) :
    (NewTestConsensus pcm bcastOk data consensusID cb).pcm.Consensuses consensusID =
      some { preparedCount := 0, commitCount := 0, State := .consensusPrePrepared, result := "",
             test := true, onConsensusFinishCallback := cb } ∧
    (∀ k, k ≠ consensusID →
      (NewTestConsensus pcm bcastOk data consensusID cb).pcm.Consensuses k =
        pcm.Consensuses k) ∧
    (NewTestConsensus pcm bcastOk data consensusID cb).pcm.maxFaultNodes = pcm.maxFaultNodes ∧
    (∃ msg, (NewTestConsensus pcm bcastOk data consensusID cb).broadcasts = [msg] ∧
      msg.Type_ = "prepared" ∧
      payloadGet msg.Payload "consensusID" = .str consensusID ∧
      payloadGet msg.Payload "data" = .str data) ∧
    (NewTestConsensus pcm bcastOk data consensusID cb).callbacks = [] ∧
    (NewTestConsensus pcm bcastOk data consensusID cb).panicked = false := by
  refine ⟨?_, ?_, rfl, ?_, rfl, rfl⟩
  · simp [NewTestConsensus, setConsensus]
  · intro k hk
    simp [NewTestConsensus, setConsensus, hk]
  · exact ⟨_, rfl, rfl, payloadGet_built_consensusID _ _, payloadGet_built_data _ _⟩

/-- Witness of C9: a second round "r2" started on a manager holding round "r1", with the
broadcast failing; round "r1" is untouched. -/
theorem C9_NewTestConsensus_registers_witness :
    stateOf (NewTestConsensus (startedR1 0) false "x" "r2" (some 8)).pcm "r2" =
      some .consensusPrePrepared ∧
    (NewTestConsensus (startedR1 0) false "x" "r2" (some 8)).pcm.Consensuses "r1" =
      (startedR1 0).Consensuses "r1" :=
  ⟨by
    rw [stateOf, (C9_NewTestConsensus_registers (startedR1 0) false "x" "r2" (some 8)).1]
    rfl,
   (C9_NewTestConsensus_registers (startedR1 0) false "x" "r2" (some 8)).2.1 "r1"
     (by decide)⟩

/-! ## The validation pipeline -/

/-- C10: when the signature verifies and the request has a cached event, `IsValidPrePrepare`
returns false as soon as one of the five cross-referenced fields (callback address, callback
method id, origin chain, request type, request params) differs from the cached event, whatever
the rest of the message and the other external answers are. -/
theorem C10_event_mismatch_rejected (env : ValidationEnv) (prePrepare : PrePrepareMessage)
    (requestEvent : OracleRequestEvent)
    (hsig : env.verifyTaskSignature prePrepare.Payload = none)
    (hevent : env.GetOracleRequestEvent ("request_" ++ prePrepare.Payload.RequestID) =
      .ok requestEvent)
    (hdiff : requestEvent.CallbackAddress ≠ prePrepare.Payload.CallbackAddress ∨
      requestEvent.CallbackMethodID ≠ prePrepare.Payload.CallbackMethodID ∨
      requestEvent.OriginChain ≠ prePrepare.Payload.Task.OriginChain ∨
      requestEvent.RequestType ≠ prePrepare.Payload.Task.RequestType ∨
      requestEvent.RequestParams ≠ prePrepare.Payload.Task.RequestParams) :
    IsValidPrePrepare env prePrepare = .returned false := by
  have hmis : eventMismatch requestEvent prePrepare.Payload = true := by
    simp only [eventMismatch, Bool.or_eq_true, bne_iff_ne]
    tauto
  simp [IsValidPrePrepare, hsig, hevent, hmis]

/-- Witness of C10: a message that differs from the cached event only in the request params. -/
theorem C10_event_mismatch_rejected_witness :
    (sampleEnv.verifyTaskSignature otherParamsMsg.Payload = none ∧
     sampleEnv.GetOracleRequestEvent ("request_" ++ otherParamsMsg.Payload.RequestID) =
       .ok sampleEvent ∧
     sampleEvent.RequestParams ≠ otherParamsMsg.Payload.Task.RequestParams) ∧
    IsValidPrePrepare sampleEnv otherParamsMsg = .returned false :=
  ⟨⟨rfl, rfl, by decide⟩,
   C10_event_mismatch_rejected sampleEnv otherParamsMsg sampleEvent rfl rfl
     (Or.inr (Or.inr (Or.inr (Or.inr (by decide)))))⟩

/-- C11: for a message that passes every earlier check (signature, cached event found and
equal in the five fields, claimed WinCount at least 1, miner eligible, address marshalled, both
randomness draws succeeding, both VRF proofs verifying, stake query succeeding),
`IsValidPrePrepare` returns false when the claimed WinCount differs from `ComputeWinCount` over
the fetched stake and returns true when the two are equal. -/
theorem C11_wincount_decides (env : ValidationEnv) (prePrepare : PrePrepareMessage)
    (requestEvent : OracleRequestEvent) (electionProof : ElectionProof) (ticket : Ticket)
    (beaconEntry : BeaconEntry)
    (minerAddressMarshalled electionProofRandomness ticketRandomness : Bytes)
    (mStake nStake : Int)
    (hsig : env.verifyTaskSignature prePrepare.Payload = none)
    (hevent : env.GetOracleRequestEvent ("request_" ++ prePrepare.Payload.RequestID) =
      .ok requestEvent)
    (hsame : requestEvent.CallbackAddress = prePrepare.Payload.CallbackAddress ∧
      requestEvent.CallbackMethodID = prePrepare.Payload.CallbackMethodID ∧
      requestEvent.OriginChain = prePrepare.Payload.Task.OriginChain ∧
      requestEvent.RequestType = prePrepare.Payload.Task.RequestType ∧
      requestEvent.RequestParams = prePrepare.Payload.Task.RequestParams)
    (hproof : prePrepare.Payload.Task.ElectionProof = some electionProof)
    (hwin : 1 ≤ electionProof.WinCount)
    (heligible : env.IsMinerEligibleToProposeTask
      (env.HexToAddress prePrepare.Payload.Task.MinerEth) = none)
    (hmarshal : env.MarshalBinary prePrepare.Payload.Task.Miner = .ok minerAddressMarshalled)
    (hbeacon : prePrepare.Payload.Task.BeaconEntries.get? 1 = some beaconEntry)
    (hdrawElection : env.DrawRandomness beaconEntry.Data
      env.DomainSeparationTag_ElectionProofProduction prePrepare.Payload.Task.DrandRound
      minerAddressMarshalled = .ok electionProofRandomness)
    (hvrfElection : env.VerifyVRF prePrepare.Payload.Task.Miner electionProofRandomness
      electionProof.VRFProof = none)
    (hdrawTicket : env.DrawRandomness beaconEntry.Data env.DomainSeparationTag_TicketProduction
      (wrapInt (prePrepare.Payload.Task.DrandRound - env.TicketRandomnessLookback))
      minerAddressMarshalled = .ok ticketRandomness)
    (hticket : prePrepare.Payload.Task.Ticket = some ticket)
    (hvrfTicket : env.VerifyVRF prePrepare.Payload.Task.Miner ticketRandomness
      ticket.VRFProof = none)
    (hstake : env.GetStakeInfo (env.HexToAddress prePrepare.Payload.Task.MinerEth) =
      .ok (mStake, nStake)) :
    (electionProof.WinCount ≠ env.ComputeWinCount electionProof mStake nStake →
      IsValidPrePrepare env prePrepare = .returned false) ∧
    (electionProof.WinCount = env.ComputeWinCount electionProof mStake nStake →
      IsValidPrePrepare env prePrepare = .returned true) := by
  obtain ⟨h1, h2, h3, h4, h5⟩ := hsame
  have hmis : eventMismatch requestEvent prePrepare.Payload = false := by
    simp [eventMismatch, h1, h2, h3, h4, h5]
  have hnot : ¬ electionProof.WinCount < 1 := by omega
  have hentry : prePrepare.Payload.Task.BeaconEntries[1]? = some beaconEntry := by
    simpa using hbeacon
  constructor
  · intro hne
    simp [IsValidPrePrepare, hsig, hevent, hmis, hproof, hnot, heligible, hmarshal, hentry,
      hdrawElection, hdrawTicket, hticket, hstake, hne]
  · intro heq
    simp [IsValidPrePrepare, hsig, hevent, hmis, hproof, hnot, heligible, hmarshal, hentry,
      hdrawElection, hdrawTicket, hticket, hstake, ← heq]

/-- Witness of C11: the message claiming two wins where the recomputed win count is one. -/
theorem C11_wincount_decides_witness :
    (twoWinsMsg.Payload.Task.ElectionProof = some { WinCount := 2, VRFProof := [5] } ∧
     (2 : Int) ≠ sampleEnv.ComputeWinCount { WinCount := 2, VRFProof := [5] } 1 10) ∧
    IsValidPrePrepare sampleEnv twoWinsMsg = .returned false :=
  ⟨⟨rfl, by decide⟩,
   (C11_wincount_decides sampleEnv twoWinsMsg sampleEvent { WinCount := 2, VRFProof := [5] }
     { VRFProof := [4] } { Round := 10, Data := [7] } ("peerA".toList.map Char.toNat)
     ([7] ++ "peerA".toList.map Char.toNat) ([7] ++ "peerA".toList.map Char.toNat) 1 10
     rfl rfl (by decide) rfl (by decide) rfl rfl rfl rfl rfl rfl rfl rfl rfl).1 (by decide)⟩

/-- C12 (the code breaks it): with a `VerifyVRF` that fails on the election proof and on the
ticket, a message that passes the other checks is accepted: `IsValidPrePrepare` returns true. -/
theorem C12_failed_vrf_accepted :
    vrfRejectingEnv.VerifyVRF matchingMsg.Payload.Task.Miner
      ([7] ++ "peerA".toList.map Char.toNat) [5] = some "vrf proof is invalid" ∧
    vrfRejectingEnv.VerifyVRF matchingMsg.Payload.Task.Miner
      ([7] ++ "peerA".toList.map Char.toNat) [4] = some "vrf proof is invalid" ∧
    IsValidPrePrepare vrfRejectingEnv matchingMsg = .returned true := by
  refine ⟨rfl, rfl, ?_⟩
  decide

/-- C13 (the code breaks it): `IsValidPrePrepare` panics on a message with one beacon entry
that passes the checks before the randomness draw; `handleCommitMessage` and
`handlePreparedMessage` panic on a payload without a string consensusID; `handleCommitMessage`
panics, after it has set State to Committed, on a payload whose data is not a string when the
threshold is crossed. -/
theorem C13_handlers_panic :
    IsValidPrePrepare sampleEnv oneBeaconMsg = .panicked ∧
    (handleCommitMessage (startedR1 0)
      { Type_ := "commit", Payload := [("data", .str "a")] }).panicked = true ∧
    (handlePreparedMessage (startedR1 0) true
      { Type_ := "prepared", Payload := [("consensusID", .other 5)] }).panicked = true ∧
    (handleCommitMessage oneCommitR1
      { Type_ := "commit", Payload := [("consensusID", .str "r1"), ("data", .other 5)] }
      ).panicked = true ∧
    stateOf (handleCommitMessage oneCommitR1
      { Type_ := "commit", Payload := [("consensusID", .str "r1"), ("data", .other 5)] }
      ).pcm "r1" = some .consensusCommitted := by
  decide

/-! ## The message store -/

/-- The loop of `IsExistingPrePrepare` started with `found` ends with `found` or with a match. -/
theorem foldl_found (sender : String) (msgs : List PrePrepareMessage) (found : Bool) :
    msgs.foldl (fun found v => if v.From = sender then true else found) found =
      (found || msgs.any (fun v => decide (v.From = sender))) := by
  induction msgs generalizing found with
  | nil => simp
  | cons v rest ih =>
    rw [List.foldl_cons, ih]
    by_cases h : v.From = sender
    · simp [h]
    · simp [h]

/-- C14: `IsExistingPrePrepare(m)` returns true exactly when the list stored under the
consensus id of `m` holds a message whose `From` equals that of `m`; two pools that agree on
that one list give the same answer, whatever they store under other ids.  The method is a
function of the pool and writes nothing. -/
theorem C14_IsExistingPrePrepare_iff (ppp : PrePreparePool) (m : PrePrepareMessage) :
    (IsExistingPrePrepare ppp m = true ↔
      ∃ v ∈ poolGet ppp m.Payload.ConsensusID, v.From = m.From) ∧
    (∀ other : PrePreparePool,
      other.prePrepareMsgs m.Payload.ConsensusID = ppp.prePrepareMsgs m.Payload.ConsensusID →
      IsExistingPrePrepare other m = IsExistingPrePrepare ppp m) := by
  constructor
  · simp only [IsExistingPrePrepare, foldl_found]
    simp
  · intro other h
    simp only [IsExistingPrePrepare, poolGet, h]

/-- Witness of C14: in `samplePool` the sender of `resentMsg` is already stored under "c1",
and a pool that only shares the list of "c1" answers the same. -/
theorem C14_IsExistingPrePrepare_iff_witness :
    IsExistingPrePrepare samplePool resentMsg = true ∧
    IsExistingPrePrepare (AddPrePrepare NewPrePreparePool matchingMsg) resentMsg =
      IsExistingPrePrepare samplePool resentMsg :=
  ⟨(C14_IsExistingPrePrepare_iff samplePool resentMsg).1.2
     ⟨matchingMsg, by decide, by decide⟩,
   (C14_IsExistingPrePrepare_iff samplePool resentMsg).2
     (AddPrePrepare NewPrePreparePool matchingMsg) (by decide)⟩

/-- C15: after `AddPrePrepare(m)` the list stored under the consensus id of `m` is the previous
list (empty for a missing id) with `m` appended, one longer than before also when the sender is
already stored; the entries of all other ids are unchanged; and `IsExistingPrePrepare` returns
true for every message with the consensus id and the `From` of `m`. -/
theorem C15_AddPrePrepare_appends (ppp : PrePreparePool) (m : PrePrepareMessage) :
    (AddPrePrepare ppp m).prePrepareMsgs m.Payload.ConsensusID =
      some (poolGet ppp m.Payload.ConsensusID ++ [m]) ∧
    (poolGet (AddPrePrepare ppp m) m.Payload.ConsensusID).length =
      (poolGet ppp m.Payload.ConsensusID).length + 1 ∧
    (∀ k, k ≠ m.Payload.ConsensusID →
      (AddPrePrepare ppp m).prePrepareMsgs k = ppp.prePrepareMsgs k) ∧
    (∀ m2 : PrePrepareMessage, m2.Payload.ConsensusID = m.Payload.ConsensusID →
      m2.From = m.From → IsExistingPrePrepare (AddPrePrepare ppp m) m2 = true) := by
  have hstored : (AddPrePrepare ppp m).prePrepareMsgs m.Payload.ConsensusID =
      some (poolGet ppp m.Payload.ConsensusID ++ [m]) := by
    cases h : ppp.prePrepareMsgs m.Payload.ConsensusID <;>
      simp [AddPrePrepare, poolSet, poolGet, h]
  have hget : poolGet (AddPrePrepare ppp m) m.Payload.ConsensusID =
      poolGet ppp m.Payload.ConsensusID ++ [m] := by
    rw [poolGet, hstored]
  refine ⟨hstored, ?_, ?_, ?_⟩
  · rw [hget]
    simp
  · intro k hk
    cases h : ppp.prePrepareMsgs m.Payload.ConsensusID <;>
      simp [AddPrePrepare, poolSet, h, hk]
  · intro m2 hid hfrom
    simp only [IsExistingPrePrepare, foldl_found, hid, hget, hfrom]
    simp

/-- Witness of C15: `resentMsg` added to `samplePool`, which already holds a message of the
same sender under "c1". -/
theorem C15_AddPrePrepare_appends_witness :
    (AddPrePrepare samplePool resentMsg).prePrepareMsgs "c1" =
      some ([matchingMsg] ++ [resentMsg]) ∧
    (AddPrePrepare samplePool resentMsg).prePrepareMsgs "c2" = samplePool.prePrepareMsgs "c2" ∧
    IsExistingPrePrepare (AddPrePrepare samplePool resentMsg) matchingMsg = true :=
  ⟨(C15_AddPrePrepare_appends samplePool resentMsg).1,
   (C15_AddPrePrepare_appends samplePool resentMsg).2.2.1 "c2" (by decide),
   (C15_AddPrePrepare_appends samplePool resentMsg).2.2.2 matchingMsg rfl rfl⟩

/-! ## The miner -/

/-- C16: `UpdateCurrentStakeInfo` returns an error exactly when the miner-stake lookup or the
network-stake lookup fails; when it returns an error the miner, with both stored figures, is
unchanged (also when only the network-stake lookup failed); when both lookups succeed it
returns no error and stores the two values they returned. -/
theorem C16_UpdateCurrentStakeInfo_all_or_nothing (svc : MinerServices) (m : Miner) :
    ((UpdateCurrentStakeInfo svc m).2 ≠ none ↔
      (failed (svc.GetMinerStake m.ethAddress) = true ∨ failed svc.GetTotalStake = true)) ∧
    ((UpdateCurrentStakeInfo svc m).2 ≠ none → (UpdateCurrentStakeInfo svc m).1 = m) ∧
    (∀ mStake nStake, svc.GetMinerStake m.ethAddress = .ok mStake →
      svc.GetTotalStake = .ok nStake →
      UpdateCurrentStakeInfo svc m =
        ({ m with minerStake := mStake, networkStake := nStake }, none)) := by
  refine ⟨?_, ?_, ?_⟩
  · cases h1 : svc.GetMinerStake m.ethAddress <;> cases h2 : svc.GetTotalStake <;>
      simp [UpdateCurrentStakeInfo, failed, h1, h2]
  · cases h1 : svc.GetMinerStake m.ethAddress <;> cases h2 : svc.GetTotalStake <;>
      simp [UpdateCurrentStakeInfo, h1, h2]
  · intro mStake nStake h1 h2
    simp [UpdateCurrentStakeInfo, h1, h2]

/-- Witness of C16: the miner-stake lookup succeeds and the network-stake lookup fails; the
stored figures 3 and 30 stay. -/
theorem C16_UpdateCurrentStakeInfo_all_or_nothing_witness :
    (UpdateCurrentStakeInfo noTotalStakeServices sampleMiner).2 ≠ none ∧
    (UpdateCurrentStakeInfo noTotalStakeServices sampleMiner).1 = sampleMiner ∧
    UpdateCurrentStakeInfo sampleServices sampleMiner =
      ({ sampleMiner with minerStake := 5, networkStake := 50 }, none) :=
  ⟨(C16_UpdateCurrentStakeInfo_all_or_nothing noTotalStakeServices sampleMiner).1.2
     (Or.inr rfl),
   (C16_UpdateCurrentStakeInfo_all_or_nothing noTotalStakeServices sampleMiner).2.1
     ((C16_UpdateCurrentStakeInfo_all_or_nothing noTotalStakeServices sampleMiner).1.2
       (Or.inr rfl)),
   (C16_UpdateCurrentStakeInfo_all_or_nothing sampleServices sampleMiner).2.2 5 50 rfl rfl⟩

/-- A failed `UpdateCurrentStakeInfo` leaves the miner as it was. -/
theorem UpdateCurrentStakeInfo_error_keeps (svc : MinerServices) (m m1 : Miner) (err : String)
    (h : UpdateCurrentStakeInfo svc m = (m1, some err)) : m1 = m := by
  unfold UpdateCurrentStakeInfo at h
  cases h1 : svc.GetMinerStake m.ethAddress <;> cases h2 : svc.GetTotalStake <;>
    simp [h1, h2] at h <;> exact h.1.symm

/-- The call `UpdateCurrentStakeInfo` never changes the address of the miner. -/
theorem UpdateCurrentStakeInfo_address (svc : MinerServices) (m : Miner) :
    (UpdateCurrentStakeInfo svc m).1.address = m.address := by
  unfold UpdateCurrentStakeInfo
  cases h1 : svc.GetMinerStake m.ethAddress <;> cases h2 : svc.GetTotalStake <;> simp

/-- C17 as stated fails: when every service answers without error and the beacon returns a
single entry, `MineTask` neither returns an error, nor `(nil, nil)`, nor a task: it panics at
`bvals[1]`. -/
theorem C17_one_beacon_entry_panics :
    failed oneEntryServices.BeaconEntriesForTask = false ∧
    MineTask sampleEnv oneEntryServices sampleMiner [8] = (sampleMiner, .panicked) :=
  ⟨rfl, rfl⟩

/-- C17 amended: `MineTask` returns an error and leaves the miner unchanged when the beacon
fetch fails; when the beacon returns entries of which there is a second one, it returns an
error (miner unchanged) when the stake refresh fails, then an error when `computeTicket` fails,
then an error when the winner check fails, `(nil, nil)` when the winner check gives no election
proof, and otherwise the task with the local address as Miner, the computed ticket, the
winner's proof, the fetched entries, the given payload and the round of the second entry as
DrandRound. -/
theorem C17_MineTask_outcomes (env : ValidationEnv) (svc : MinerServices) (m : Miner)
    (payload : Bytes) :
    (∀ err, svc.BeaconEntriesForTask = .error err →
      MineTask env svc m payload =
        (m, .returned (.error ("failed to get beacon entries: " ++ err)))) ∧
    (∀ bvals rbase, svc.BeaconEntriesForTask = .ok bvals → bvals.get? 1 = some rbase →
      (∀ err, (UpdateCurrentStakeInfo svc m).2 = some err →
        MineTask env svc m payload =
          (m, .returned (.error ("failed to update miner stake: " ++ err)))) ∧
      (∀ m1, UpdateCurrentStakeInfo svc m = (m1, none) →
        (∀ err, computeTicket env svc m1 rbase = .error err →
          MineTask env svc m payload =
            (m1, .returned (.error ("scratching ticket failed: " ++ err)))) ∧
        (∀ ticket, computeTicket env svc m1 rbase = .ok ticket →
          (∀ err, svc.IsRoundWinner (toDrandRound rbase.Round) m1.address rbase m1.minerStake
              m1.networkStake = .error err →
            MineTask env svc m payload =
              (m1, .returned (.error ("failed to check if we win next round: " ++ err)))) ∧
          (svc.IsRoundWinner (toDrandRound rbase.Round) m1.address rbase m1.minerStake
              m1.networkStake = .ok none →
            MineTask env svc m payload = (m1, .returned (.ok none))) ∧
          (∀ winner, svc.IsRoundWinner (toDrandRound rbase.Round) m1.address rbase
              m1.minerStake m1.networkStake = .ok (some winner) →
            MineTask env svc m payload =
              (m1, .returned (.ok (some
                { OriginChain := 0, RequestType := "", RequestParams := "",
                  Miner := m.address, MinerEth := "", Ticket := some ticket,
                  ElectionProof := some winner, BeaconEntries := bvals,
                  DrandRound := toDrandRound rbase.Round, Payload := payload }))))))) := by
  constructor
  · intro err hb
    simp [MineTask, hb]
  · intro bvals rbase hb hr
    have hentry : bvals[1]? = some rbase := by simpa using hr
    constructor
    · intro err hu
      have hpair : UpdateCurrentStakeInfo svc m = ((UpdateCurrentStakeInfo svc m).1, some err) := by
        rw [← hu]
      have hkeep := UpdateCurrentStakeInfo_error_keeps svc m _ err hpair
      rw [hkeep] at hpair
      simp [MineTask, hb, hentry, hpair]
    · intro m1 hu
      have haddr : m1.address = m.address := by
        have := UpdateCurrentStakeInfo_address svc m
        rw [hu] at this
        exact this
      refine ⟨?_, ?_⟩
      · intro err ht
        simp [MineTask, hb, hentry, hu, ht]
      · intro ticket ht
        refine ⟨?_, ?_, ?_⟩
        · intro err hw
          simp [MineTask, hb, hentry, hu, ht, hw]
        · intro hw
          simp [MineTask, hb, hentry, hu, ht, hw]
        · intro winner hw
          rw [← haddr]
          simp [MineTask, hb, hentry, hu, ht, hw]

/-- Witness of C17 amended: with `sampleServices` the miner wins and the task is returned;
with a failing network-stake lookup the call returns an error and the stored stake stays. -/
theorem C17_MineTask_outcomes_witness :
    MineTask sampleEnv sampleServices sampleMiner [8] =
      ({ sampleMiner with minerStake := 5, networkStake := 50 }, .returned (.ok (some
        { OriginChain := 0, RequestType := "", RequestParams := "",
          Miner := "peerA", MinerEth := "",
          Ticket := some { VRFProof := 0 :: ([7] ++ "peerA".toList.map Char.toNat) },
          ElectionProof := some { WinCount := 1, VRFProof := [5] },
          BeaconEntries := [{ Round := 9, Data := [6] }, { Round := 10, Data := [7] }],
          DrandRound := toDrandRound 10, Payload := [8] }))) ∧
    MineTask sampleEnv noTotalStakeServices sampleMiner [8] =
      (sampleMiner, .returned (.error ("failed to update miner stake: " ++ "no connection"))) :=
  ⟨((((C17_MineTask_outcomes sampleEnv sampleServices sampleMiner [8]).2
        [{ Round := 9, Data := [6] }, { Round := 10, Data := [7] }] { Round := 10, Data := [7] }
        rfl rfl).2 { sampleMiner with minerStake := 5, networkStake := 50 } rfl).2
        { VRFProof := 0 :: ([7] ++ "peerA".toList.map Char.toNat) } rfl).2.2
        { WinCount := 1, VRFProof := [5] } rfl,
   ((C17_MineTask_outcomes sampleEnv noTotalStakeServices sampleMiner [8]).2
        [{ Round := 9, Data := [6] }, { Round := 10, Data := [7] }] { Round := 10, Data := [7] }
        rfl rfl).1 "no connection" rfl⟩

/-- C19: for every task returned by `MineTask`, the ticket randomness that `IsValidPrePrepare`
re-derives from the task alone is the randomness input over which `computeTicket` computed the
VRF proof of the task's ticket. -/
theorem C19_ticket_randomness_reproduced (env : ValidationEnv) (svc : MinerServices)
    (m m1 : Miner) (payload : Bytes) (task : DioneTask)
    (h : MineTask env svc m payload = (m1, .returned (.ok (some task)))) :
    ∃ bvals rbase input vrfOut,
      svc.BeaconEntriesForTask = .ok bvals ∧ bvals.get? 1 = some rbase ∧
      computeTicketInput env m1 rbase = .ok input ∧
      svc.ComputeVRF m1.address input = .ok vrfOut ∧
      task.Ticket = some { VRFProof := vrfOut } ∧
      verifierTicketRandomness env task = .returned (.ok input) := by
  unfold MineTask at h
  cases hb : svc.BeaconEntriesForTask with
  | error err => simp [hb] at h
  | ok bvals =>
    cases hr : bvals[1]? with
    | none => simp [hb, hr] at h
    | some rbase =>
      rcases hu : UpdateCurrentStakeInfo svc m with ⟨m2, uerr⟩
      cases uerr with
      | some err => simp [hb, hr, hu] at h
      | none =>
        cases hin : computeTicketInput env m2 rbase with
        | error err => simp [hb, hr, hu, computeTicket, hin] at h
        | ok input =>
          cases hv : svc.ComputeVRF m2.address input with
          | error err => simp [hb, hr, hu, computeTicket, hin, hv] at h
          | ok vrfOut =>
            cases hw : svc.IsRoundWinner (toDrandRound rbase.Round) m2.address rbase
                m2.minerStake m2.networkStake with
            | error err => simp [hb, hr, hu, computeTicket, hin, hv, hw] at h
            | ok winner =>
              cases winner with
              | none => simp [hb, hr, hu, computeTicket, hin, hv, hw] at h
              | some winner =>
                simp [hb, hr, hu, computeTicket, hin, hv, hw] at h
                obtain ⟨hm, ht⟩ := h
                subst hm
                subst ht
                refine ⟨bvals, rbase, input, vrfOut, rfl, by simpa using hr, hin, hv, rfl, ?_⟩
                unfold computeTicketInput at hin
                cases hmb : env.MarshalBinary m2.address with
                | error err => simp [hmb] at hin
                | ok buf =>
                  simp [hmb] at hin
                  simp [verifierTicketRandomness, hmb, hr, hin]

/-- Witness of C19: the task mined with `sampleServices`. -/
theorem C19_ticket_randomness_reproduced_witness :
    ∃ bvals rbase input vrfOut,
      sampleServices.BeaconEntriesForTask = .ok bvals ∧ bvals.get? 1 = some rbase ∧
      computeTicketInput sampleEnv { sampleMiner with minerStake := 5, networkStake := 50 }
        rbase = .ok input ∧
      sampleServices.ComputeVRF "peerA" input = .ok vrfOut ∧
      (some { VRFProof := 0 :: ([7] ++ "peerA".toList.map Char.toNat) } : Option Ticket) =
        some { VRFProof := vrfOut } ∧
      verifierTicketRandomness sampleEnv
        { OriginChain := 0, RequestType := "", RequestParams := "",
          Miner := "peerA", MinerEth := "",
          Ticket := some { VRFProof := 0 :: ([7] ++ "peerA".toList.map Char.toNat) },
          ElectionProof := some { WinCount := 1, VRFProof := [5] },
          BeaconEntries := [{ Round := 9, Data := [6] }, { Round := 10, Data := [7] }],
          DrandRound := toDrandRound 10, Payload := [8] } = .returned (.ok input) :=
  C19_ticket_randomness_reproduced sampleEnv sampleServices sampleMiner
    { sampleMiner with minerStake := 5, networkStake := 50 } [8] _ rfl

/-! ## The verdict of the validation pipeline -/

/-- C20 as stated fails: the message `noTicketMsg` has two beacon entries and meets every listed
condition under `sampleEnv` (signature, cached event equal in the five fields, WinCount 1,
eligible miner, marshalling and both draws succeeding, stake query succeeding, recomputed
WinCount 1), and `IsValidPrePrepare` does not return true: it panics on the nil ticket. -/
theorem C20_nil_ticket_panics :
    noTicketMsg.Payload.Task.BeaconEntries.length = 2 ∧
    sampleEnv.verifyTaskSignature noTicketMsg.Payload = none ∧
    sampleEnv.GetOracleRequestEvent ("request_" ++ noTicketMsg.Payload.RequestID) =
      .ok sampleEvent ∧
    eventMismatch sampleEvent noTicketMsg.Payload = false ∧
    noTicketMsg.Payload.Task.ElectionProof = some { WinCount := 1, VRFProof := [5] } ∧
    sampleEnv.IsMinerEligibleToProposeTask
      (sampleEnv.HexToAddress noTicketMsg.Payload.Task.MinerEth) = none ∧
    failed (sampleEnv.MarshalBinary noTicketMsg.Payload.Task.Miner) = false ∧
    failed (sampleEnv.DrawRandomness [7] 2 10 ("peerA".toList.map Char.toNat)) = false ∧
    failed (sampleEnv.DrawRandomness [7] 1 (wrapInt (10 - 1))
      ("peerA".toList.map Char.toNat)) = false ∧
    sampleEnv.GetStakeInfo (sampleEnv.HexToAddress noTicketMsg.Payload.Task.MinerEth) =
      .ok (1, 10) ∧
    sampleEnv.ComputeWinCount { WinCount := 1, VRFProof := [5] } 1 10 = 1 ∧
    IsValidPrePrepare sampleEnv noTicketMsg = .panicked ∧
    IsValidPrePrepare sampleEnv noTicketMsg ≠ .returned true := by
  refine ⟨rfl, rfl, rfl, rfl, rfl, rfl, rfl, rfl, rfl, rfl, rfl, ?_, ?_⟩ <;> decide

/-- C20 amended: for a message with at least two beacon entries and a non-nil ticket,
`IsValidPrePrepare` returns true exactly when the signature verifies, the cached request event
is found and equals the message in callback address, method id, origin chain, request type and
request params, the claimed WinCount is at least 1 and equals the one recomputed from the
fetched stake, the miner is eligible, and the marshalling and both randomness draws succeed.
Replacing `VerifyVRF` and the validator registry by any others never changes the result. -/
theorem C20_verdict_characterised (env : ValidationEnv) (prePrepare : PrePrepareMessage)
    (beaconEntry : BeaconEntry) (ticket : Ticket)
    (hbeacon : prePrepare.Payload.Task.BeaconEntries.get? 1 = some beaconEntry)
    (hticket : prePrepare.Payload.Task.Ticket = some ticket) :
    (IsValidPrePrepare env prePrepare = .returned true ↔
      env.verifyTaskSignature prePrepare.Payload = none ∧
      (∃ requestEvent,
        env.GetOracleRequestEvent ("request_" ++ prePrepare.Payload.RequestID) =
          .ok requestEvent ∧
        requestEvent.CallbackAddress = prePrepare.Payload.CallbackAddress ∧
        requestEvent.CallbackMethodID = prePrepare.Payload.CallbackMethodID ∧
        requestEvent.OriginChain = prePrepare.Payload.Task.OriginChain ∧
        requestEvent.RequestType = prePrepare.Payload.Task.RequestType ∧
        requestEvent.RequestParams = prePrepare.Payload.Task.RequestParams) ∧
      (∃ electionProof, prePrepare.Payload.Task.ElectionProof = some electionProof ∧
        1 ≤ electionProof.WinCount ∧
        ∃ mStake nStake,
          env.GetStakeInfo (env.HexToAddress prePrepare.Payload.Task.MinerEth) =
            .ok (mStake, nStake) ∧
          electionProof.WinCount = env.ComputeWinCount electionProof mStake nStake) ∧
      env.IsMinerEligibleToProposeTask
        (env.HexToAddress prePrepare.Payload.Task.MinerEth) = none ∧
      (∃ minerAddressMarshalled,
        env.MarshalBinary prePrepare.Payload.Task.Miner = .ok minerAddressMarshalled ∧
        (∃ r, env.DrawRandomness beaconEntry.Data
          env.DomainSeparationTag_ElectionProofProduction prePrepare.Payload.Task.DrandRound
          minerAddressMarshalled = .ok r) ∧
        (∃ r, env.DrawRandomness beaconEntry.Data env.DomainSeparationTag_TicketProduction
          (wrapInt (prePrepare.Payload.Task.DrandRound - env.TicketRandomnessLookback))
          minerAddressMarshalled = .ok r))) ∧
    (∀ (verify : String → Bytes → Bytes → GoError)
        (validators : Nat → String → Option (Bytes → GoError)),
      IsValidPrePrepare { env with VerifyVRF := verify, GetValidationMethod := validators }
        prePrepare = IsValidPrePrepare env prePrepare) := by
  have hentry : prePrepare.Payload.Task.BeaconEntries[1]? = some beaconEntry := by
    simpa using hbeacon
  refine ⟨?_, fun verify validators => rfl⟩
  cases hs : env.verifyTaskSignature prePrepare.Payload with
  | some e => simp [IsValidPrePrepare, hs]
  | none =>
  cases he : env.GetOracleRequestEvent ("request_" ++ prePrepare.Payload.RequestID) with
  | error e => simp [IsValidPrePrepare, hs, he]
  | ok requestEvent =>
  by_cases hm : eventMismatch requestEvent prePrepare.Payload = true
  · have hno : ¬ (requestEvent.CallbackAddress = prePrepare.Payload.CallbackAddress ∧
        requestEvent.CallbackMethodID = prePrepare.Payload.CallbackMethodID ∧
        requestEvent.OriginChain = prePrepare.Payload.Task.OriginChain ∧
        requestEvent.RequestType = prePrepare.Payload.Task.RequestType ∧
        requestEvent.RequestParams = prePrepare.Payload.Task.RequestParams) := by
      simp only [eventMismatch, Bool.or_eq_true, bne_iff_ne] at hm
      tauto
    simp [IsValidPrePrepare, hs, he, hm, hno]
  · have hyes : requestEvent.CallbackAddress = prePrepare.Payload.CallbackAddress ∧
        requestEvent.CallbackMethodID = prePrepare.Payload.CallbackMethodID ∧
        requestEvent.OriginChain = prePrepare.Payload.Task.OriginChain ∧
        requestEvent.RequestType = prePrepare.Payload.Task.RequestType ∧
        requestEvent.RequestParams = prePrepare.Payload.Task.RequestParams := by
      simp only [eventMismatch, Bool.or_eq_true, bne_iff_ne] at hm
      tauto
    cases hp : prePrepare.Payload.Task.ElectionProof with
    | none => simp [IsValidPrePrepare, hs, he, hm, hp]
    | some electionProof =>
    by_cases hw : electionProof.WinCount < 1
    · have hw2 : ¬ 1 ≤ electionProof.WinCount := by omega
      simp [IsValidPrePrepare, hs, he, hm, hp, hw, hw2]
    · have hw2 : 1 ≤ electionProof.WinCount := by omega
      cases hel : env.IsMinerEligibleToProposeTask
          (env.HexToAddress prePrepare.Payload.Task.MinerEth) with
      | some e => simp [IsValidPrePrepare, hs, he, hm, hp, hw, hel]
      | none =>
      cases hmb : env.MarshalBinary prePrepare.Payload.Task.Miner with
      | error e => simp [IsValidPrePrepare, hs, he, hm, hp, hw, hel, hmb]
      | ok buf =>
      cases hd1 : env.DrawRandomness beaconEntry.Data
          env.DomainSeparationTag_ElectionProofProduction prePrepare.Payload.Task.DrandRound
          buf with
      | error e => simp [IsValidPrePrepare, hs, he, hm, hp, hw, hel, hmb, hentry, hd1]
      | ok r1 =>
      cases hd2 : env.DrawRandomness beaconEntry.Data env.DomainSeparationTag_TicketProduction
          (wrapInt (prePrepare.Payload.Task.DrandRound - env.TicketRandomnessLookback))
          buf with
      | error e => simp [IsValidPrePrepare, hs, he, hm, hp, hw, hel, hmb, hentry, hd1, hd2]
      | ok r2 =>
      cases hst : env.GetStakeInfo (env.HexToAddress prePrepare.Payload.Task.MinerEth) with
      | error e =>
        simp [IsValidPrePrepare, hs, he, hm, hp, hw, hel, hmb, hentry, hd1, hd2, hticket, hst]
      | ok stake =>
        obtain ⟨mStake, nStake⟩ := stake
        by_cases hc : electionProof.WinCount = env.ComputeWinCount electionProof mStake nStake
        · have hres : IsValidPrePrepare env prePrepare = .returned true := by
            simp [IsValidPrePrepare, hs, he, hm, hp, hw, hel, hmb, hentry, hd1, hd2,
              hticket, hst, ← hc]
          simp only [hres, true_iff]
          simp [hs, he, hp, hw2, hel, hmb, hd1, hd2, hst, hyes]
          exact ⟨mStake, nStake, ⟨rfl, rfl⟩, hc⟩
        · simp [IsValidPrePrepare, hs, he, hm, hp, hw, hel, hmb, hentry, hd1, hd2, hticket,
            hst, hc]

/-- Witness of C20 amended: `matchingMsg` is accepted under `sampleEnv`, also when `VerifyVRF`
rejects every proof. -/
theorem C20_verdict_characterised_witness :
    (matchingMsg.Payload.Task.BeaconEntries.get? 1 = some { Round := 10, Data := [7] } ∧
     matchingMsg.Payload.Task.Ticket = some { VRFProof := [4] }) ∧
    IsValidPrePrepare sampleEnv matchingMsg = .returned true ∧
    IsValidPrePrepare
      { sampleEnv with VerifyVRF := fun _ _ _ => some "vrf proof is invalid",
                       GetValidationMethod := fun _ _ => some (fun _ => some "bad payload") }
      matchingMsg = IsValidPrePrepare sampleEnv matchingMsg :=
  ⟨⟨rfl, rfl⟩,
   (C20_verdict_characterised sampleEnv matchingMsg { Round := 10, Data := [7] }
     { VRFProof := [4] } rfl rfl).1.2
     ⟨rfl, ⟨sampleEvent, rfl, rfl, rfl, rfl, rfl, rfl⟩,
      ⟨{ WinCount := 1, VRFProof := [5] }, rfl, by decide, 1, 10, rfl, rfl⟩, rfl,
      ⟨"peerA".toList.map Char.toNat, rfl, ⟨_, rfl⟩, ⟨_, rfl⟩⟩⟩,
   (C20_verdict_characterised sampleEnv matchingMsg { Round := 10, Data := [7] }
     { VRFProof := [4] } rfl rfl).2 _ _⟩

/-! ## Lock discipline -/

/-- The logged `handlePreparedMessage` computes the outcome of `handlePreparedMessage`. -/
theorem handlePreparedMessageLogged_outcome (pcm : PBFTConsensusManager) (bcastOk : Bool)
    (message : Message) :
    (handlePreparedMessageLogged pcm bcastOk message).1 =
      handlePreparedMessage pcm bcastOk message := by
  unfold handlePreparedMessageLogged handlePreparedMessage
  split
  · split
    · rfl
    · simp only []
      split
      · split <;> rfl
      · rfl
  · rfl

/-- The logged `handleCommitMessage` computes the outcome of `handleCommitMessage`. -/
theorem handleCommitMessageLogged_outcome (pcm : PBFTConsensusManager) (message : Message) :
    (handleCommitMessageLogged pcm message).1 = handleCommitMessage pcm message := by
  unfold handleCommitMessageLogged handleCommitMessage
  split
  · split
    · rfl
    · simp only []
      split
      · rfl
      · split
        · split
          · split <;> rfl
          · rfl
        · rfl
  · rfl

/-- C18 (the code breaks it): in `handlePreparedMessage` the read of `preparedCount` at line 95
and the write of `State` at line 106 happen after `Unlock`, without the mutex of the round,
while `handleCommitMessage` makes all its accesses to the counters, State and result under the
mutex; the map `Consensuses` is read (lines 70, 75, 114, 118) and written (line 52) under no
lock, and `NewTestConsensus` writes `State` at line 63 under no lock; and deliveries handled
one after the other invoke the finish callback of round "r1" twice. -/
theorem C18_accesses_outside_mutex :
    unguarded (handlePreparedMessageLogged onePreparedR1 true (preparedMsg "r1" "a")).2 =
      [{ line := 70, var := .Consensuses, isWrite := false, mutexHeld := false },
       { line := 75, var := .Consensuses, isWrite := false, mutexHeld := false },
       { line := 95, var := .preparedCount, isWrite := false, mutexHeld := false },
       { line := 106, var := .State, isWrite := true, mutexHeld := false }] ∧
    unguarded (handleCommitMessageLogged oneCommitR1 (commitMsg "r1" "b")).2 =
      [{ line := 114, var := .Consensuses, isWrite := false, mutexHeld := false },
       { line := 118, var := .Consensuses, isWrite := false, mutexHeld := false }] ∧
    (NewTestConsensusLogged (NewPBFTConsensusManager 0) true "test" "r1" (some 7)).2 =
      [{ line := 52, var := .Consensuses, isWrite := true, mutexHeld := false },
       { line := 63, var := .State, isWrite := true, mutexHeld := false }] ∧
    callsOf 7 (deliverAll (startedR1 0) finishedAgain) = ["a", "b"] := by
  decide

end Dione
